import Mathlib

/-!
# Crime dashboard: the filter-and-render pipeline of `static/script.js`

A shallow embedding of the client script of the dashboard: the record filter
(`applyFilters`), the style table (`getStyleForCrime`), the popup text
(`createPopupContent`), the three renderers with their teardown
(`updateMap`, `clearAllLayers`, `drawPointMap`, `drawClusterMap`,
`drawHeatMap`) and the event handlers that drive them.

JavaScript values are modelled as follows.
* A string is a `String`; the relational operators on two strings compare
  the UTF-16 code units (`jsStrLt`).
* A record field that holds text is an `Option String`: `none` is a field the
  record does not have (the script reads `undefined`).
* Numbers that the script only carries from a record into a marker
  (latitude, longitude) are fixed-point integers; the heat radius is a
  rational, so that halving it is exact.

Two things the script depends on are decided by the page's template, which is
not part of the sources: the initial state of the controls, and the release of
the dropdown library (SlimSelect) the page loads. Both are parameters of
`initializeApp` (`Markup`).
-/

namespace CrimeDashboard

/-! ## Strings -/

/-- The UTF-16 code units of one character. -/
def utf16Units (c : Char) : List Nat :=
  if c.toNat < 0x10000 then [c.toNat]
  else [0xD800 + (c.toNat - 0x10000) / 0x400, 0xDC00 + (c.toNat - 0x10000) % 0x400]

/-- The UTF-16 code units of a string, the sequence a JavaScript string is. -/
def toUTF16 : List Char → List Nat
  | [] => []
  | c :: cs => utf16Units c ++ toUTF16 cs

/-- Lexicographic "less than" on code-unit sequences. -/
def unitsLt : List Nat → List Nat → Bool
  | _, [] => false
  | [], _ :: _ => true
  | a :: as, b :: bs => if a < b then true else if b < a then false else unitsLt as bs

/-- Lexicographic "less than or equal" on code-unit sequences. -/
def unitsLe : List Nat → List Nat → Bool
  | [], _ => true
  | _ :: _, [] => false
  | a :: as, b :: bs => if a < b then true else if b < a then false else unitsLe as bs

/-- The operator `a < b` on two strings. -/
def jsStrLt (a b : String) : Bool := unitsLt (toUTF16 a.toList) (toUTF16 b.toList)

/-- Lexicographic string order: `a` is at or before `b`. -/
def jsStrLe (a b : String) : Bool := unitsLe (toUTF16 a.toList) (toUTF16 b.toList)

/-- The operator `x < s` where `x` is a record field and `s` a string: a
missing field converts to NaN and the comparison is false. -/
def jsLt : Option String → String → Bool
  | none, _ => false
  | some a, b => jsStrLt a b

/-- The operator `x > s` where `x` is a record field and `s` a string. -/
def jsGt : Option String → String → Bool
  | none, _ => false
  | some a, b => jsStrLt b a

/-- Truthiness of a string: every string but the empty one. -/
def truthy (s : String) : Bool := s != ""

/-- The method `xs.includes(v)` on an array of strings: a missing field is
never found. -/
def includes (xs : List String) : Option String → Bool
  | none => false
  | some v => xs.contains v

/-- The value of `x || 'N/A'` for a record field `x`. -/
def orNA : Option String → String
  | none => "N/A"
  | some v => if truthy v then v else "N/A"

/-- The value the HTML parser reads for an attribute written `name="${raw}"`
in a template string, as lines 98 and 115 write `value` and `data-station`:
the text is not escaped, so the value ends at the first double quote. (For
a text that holds none of `&`, `<`, `>`; with those, character references and
tags come into play.) -/
def attributeValue (raw : String) : String :=
  String.mk (raw.toList.takeWhile (· != '"'))

/-- A name that holds none of the characters that markup gives a meaning:
written into a template string, it reads back unchanged. -/
def plainName (n : String) : Bool :=
  n.toList.all fun c => c != '"' && c != '&' && c != '<' && c != '>'

/-! ## Records -/

/-- A fixed-point coordinate; the script never computes with it. -/
abbrev Coord := Int

/-- One incident record of `/api/data`; `EventType` is the field
`'Event Type'` and `PoliceStation` the field `'Police Station'`. -/
structure Record where
  EventType : Option String
  Subdivision : Option String
  PoliceStation : Option String
  Complaint : Option String
  Date : Option String
  Latitude : Coord
  Longitude : Coord
  Category : Option String
  deriving DecidableEq, Repr

/-! ## The filter predicate (`applyFilters`, lines 175-182) -/

/-- The callback of `allData.filter` in `applyFilters`: five guards, each
returning `false`, and `true` when none fires. -/
def keepItem (activeCrime fromDateStr toDateStr : String)
    (selectedAreas selectedSubdivisions : List String) (item : Record) : Bool :=
  if activeCrime != "All" && item.EventType != some activeCrime then false
  else if decide (selectedAreas.length > 0) && !includes selectedAreas item.Category then false
  else if decide (selectedSubdivisions.length > 0)
      && !includes selectedSubdivisions item.Subdivision then false
  else if truthy fromDateStr && jsLt item.Date fromDateStr then false
  else if truthy toDateStr && jsGt item.Date toDateStr then false
  else true

/-- The event-type guard of line 176 alone. -/
def eventTypeRule (activeCrime : String) (item : Record) : Bool :=
  !(activeCrime != "All" && item.EventType != some activeCrime)

/-- The category guard of line 177 alone. -/
def categoryRule (selectedAreas : List String) (item : Record) : Bool :=
  !(decide (selectedAreas.length > 0) && !includes selectedAreas item.Category)

/-- The subdivision guard of line 178 alone. -/
def subdivisionRule (selectedSubdivisions : List String) (item : Record) : Bool :=
  !(decide (selectedSubdivisions.length > 0) && !includes selectedSubdivisions item.Subdivision)

/-- The lower date guard of line 179 alone. -/
def fromDateRule (fromDateStr : String) (item : Record) : Bool :=
  !(truthy fromDateStr && jsLt item.Date fromDateStr)

/-- The upper date guard of line 180 alone. -/
def toDateRule (toDateStr : String) (item : Record) : Bool :=
  !(truthy toDateStr && jsGt item.Date toDateStr)

/-! ## Styles (`crimeStyles`, `getStyleForCrime`, lines 10-16) -/

/-- One entry of `crimeStyles`. -/
structure StyleEntry where
  fillColor : String
  color : String
  deriving DecidableEq, Repr

/-- The own properties of the object literal `crimeStyles`. -/
def crimeStyles : List (String × StyleEntry) :=
  [("Fighting / Threatening", ⟨"#ff4d4d", "#b30000"⟩),
   ("Family Dispute", ⟨"#ffad33", "#cc7a00"⟩),
   ("Road Accident", ⟨"#800000", "#330000"⟩),
   ("Fire Accident", ⟨"#ff8000", "#b35900"⟩),
   ("Woman & Child Related", ⟨"#ff66cc", "#990066"⟩),
   ("Theft / Robbery", ⟨"#4d4d4d", "#000000"⟩),
   ("Prohibition Related", ⟨"#bf80ff", "#5900b3"⟩),
   ("default", ⟨"#808080", "#404040"⟩)]

/-- The property names every object literal inherits from `Object.prototype`;
each names a function, or for `__proto__` the prototype object itself. -/
def objectPrototypeKeys : List String :=
  ["constructor", "__defineGetter__", "__defineSetter__", "hasOwnProperty",
   "__lookupGetter__", "__lookupSetter__", "isPrototypeOf", "propertyIsEnumerable",
   "toString", "valueOf", "__proto__", "toLocaleString"]

/-- What a property read `obj[key]` on an object literal yields. -/
inductive PropValue (α : Type) where
  | own (v : α)
  | inherited
  | undefined
  deriving DecidableEq, Repr

/-- The read `obj[key]` on an object literal whose own properties are
`table`: an own property, else a member of `Object.prototype`, else
`undefined`. -/
def getProp {α : Type} (table : List (String × α)) (key : String) : PropValue α :=
  match table.lookup key with
  | some v => .own v
  | none => if objectPrototypeKeys.contains key then .inherited else .undefined

/-- The property key an argument converts to: a missing field reads the key
`"undefined"`. -/
def toPropertyKey : Option String → String
  | none => "undefined"
  | some k => k

/-- The option object `getStyleForCrime` returns; `fillColor` and `color` are
`none` when the spread object has no such property. -/
structure Style where
  fillColor : Option String
  color : Option String
  radius : Nat
  weight : Nat
  opacity : Nat
  fillOpacity : ℚ
  deriving DecidableEq, Repr

/-- The spread `{ ...style, radius: 6, weight: 1, opacity: 1, fillOpacity: 0.8 }`:
an entry of the table contributes its two colours, an inherited member of
`Object.prototype` has no own enumerable property and contributes nothing. -/
def spreadStyle : PropValue StyleEntry → Style
  | .own e => ⟨some e.fillColor, some e.color, 6, 1, 1, 0.8⟩
  | _ => ⟨none, none, 6, 1, 1, 0.8⟩

/-- The function `getStyleForCrime`: `crimeStyles[crimeType] || crimeStyles['default']`,
then the spread. An own entry and an inherited member are both truthy. -/
def getStyleForCrime (crimeType : String) : Style :=
  let style :=
    match getProp crimeStyles crimeType with
    | .undefined => getProp crimeStyles "default"
    | v => v
  spreadStyle style

/-! ## Popups (`createPopupContent`, line 197) -/

/-- The template string of `createPopupContent`. -/
def createPopupContent (item : Record) : String :=
  "<strong>Event:</strong> " ++ orNA item.EventType
    ++ "<br><strong>Subdivision:</strong> " ++ orNA item.Subdivision
    ++ "<br><strong>Police Station:</strong> " ++ orNA item.PoliceStation
    ++ "<br><strong>Complaint:</strong> " ++ orNA item.Complaint
    ++ "<br><strong>Date:</strong> " ++ orNA item.Date

/-! ## Markers and overlays -/

/-- A circle marker: position, style options, whether a canvas renderer was
passed in its options (the renderer itself is an object of its own, see
`canvasRenderers`), and the bound popup. -/
structure Marker where
  lat : Coord
  lng : Coord
  style : Style
  canvas : Bool
  popup : String
  deriving DecidableEq, Repr

/-- The marker `drawPointMap` builds for one record. -/
def pointMarker (item : Record) : Marker :=
  ⟨item.Latitude, item.Longitude, getStyleForCrime (toPropertyKey item.EventType), true,
    createPopupContent item⟩

/-- The marker `drawClusterMap` builds for one record. -/
def clusterMarker (item : Record) : Marker :=
  ⟨item.Latitude, item.Longitude, getStyleForCrime (toPropertyKey item.EventType), false,
    createPopupContent item⟩

/-- A heat layer object; `id` is its identity as a map layer. -/
structure HeatLayer where
  id : Nat
  points : List (Coord × Coord × ℚ)
  radius : ℚ
  blur : ℚ
  maxZoom : Nat
  deriving DecidableEq, Repr

/-- A marker cluster group object; `id` is its identity as a map layer. -/
structure ClusterGroup where
  id : Nat
  markers : List Marker
  deriving DecidableEq, Repr

/-- The last command given to the map's viewport. -/
inductive View where
  | setView (lat lng : ℚ) (zoom : Nat)
  | fitBounds (boundary : String)
  deriving DecidableEq, Repr

/-! ## Page state -/

/-- A checkbox of class `area-filter`. -/
structure Checkbox where
  value : String
  checked : Bool
  deriving DecidableEq, Repr

/-- An option of the subdivision dropdown. -/
structure SelectOption where
  value : String
  selected : Bool
  deriving DecidableEq, Repr

/-- An element of class `subdivision-list-item`; `station` is its
`data-station` and `active` whether it carries the class `active`. -/
structure ListItem where
  station : String
  active : Bool
  deriving DecidableEq, Repr

/-- How the dropdown hands a changed selection to the `afterChange` callback.
SlimSelect 3 calls it inside the call that changed the selection; SlimSelect 2
wraps it in a 100 ms debounce: the call waits in a timer, a later call
replaces the waiting one, and the callback runs with the selection it was
given when the timer fires. -/
inductive Delivery where
  | immediate
  | debounced (pending : Option (List String))
  deriving DecidableEq, Repr

/-- The variables of the script and the part of the page it reads and
writes, once `initializeSubdivisionDropdown` has built the dropdown.
`activeCrime` is the `data-crime` of the one button of class
`filter-btn active`; `mapView` the value of the checked `mapView` radio;
`mapLayers` the identities of the heat layers and cluster groups added to
the map, `canvasRenderers` those of the canvas renderers added to it (one
registry in Leaflet; `removeLayer` and `addLayer` act on an object's own
identity, so the two kinds never meet); the point group stays on the map
throughout. `delivery` is the state of the dropdown's `afterChange`
delivery. -/
structure App where
  allData : List Record
  activeCrime : String
  fromDate : String
  toDate : String
  areaFilters : List Checkbox
  subdivisionSelect : List SelectOption
  listItems : List ListItem
  mapView : String
  heatmapRadiusSlider : ℚ
  radiusValueSpan : ℚ
  heatmapOptionsShown : Bool
  view : View
  subdivisionBoundaries : List String
  pointLayerGroup : List Marker
  heatLayer : Option HeatLayer
  clusterLayerGroup : Option ClusterGroup
  mapLayers : List Nat
  canvasRenderers : List Nat
  nextId : Nat
  delivery : Delivery
  deriving DecidableEq, Repr

/-- The values of the checked `area-filter` checkboxes (line 173). -/
def selectedAreas (s : App) : List String :=
  (s.areaFilters.filter (·.checked)).map (·.value)

/-- The method `getSelected` of the dropdown: the values of its selected
options, in option order. -/
def getSelected (opts : List SelectOption) : List String :=
  (opts.filter (·.selected)).map (·.value)

/-- The function `applyFilters`. -/
def applyFilters (s : App) : List Record :=
  s.allData.filter
    (keepItem s.activeCrime s.fromDate s.toDate (selectedAreas s) (getSelected s.subdivisionSelect))

/-! ## Rendering (`updateMap` and the draw functions, lines 185-212) -/

/-- The method `map.removeLayer`: the layer with this identity leaves the map. -/
def removeLayer (id : Nat) (layers : List Nat) : List Nat := layers.filter (· != id)

/-- The method `map.addLayer`: a layer not yet on the map joins it. -/
def addLayer (id : Nat) (layers : List Nat) : List Nat :=
  if layers.contains id then layers else layers ++ [id]

/-- The function `clearAllLayers`. -/
def clearAllLayers (s : App) : App :=
  let s1 := { s with pointLayerGroup := [] }
  let s2 :=
    match s1.heatLayer with
    | some h => { s1 with mapLayers := removeLayer h.id s1.mapLayers }
    | none => s1
  let s3 :=
    match s2.clusterLayerGroup with
    | some g => { s2 with mapLayers := removeLayer g.id s2.mapLayers }
    | none => s2
  { s3 with heatLayer := none, clusterLayerGroup := none }

/-- The function `drawPointMap`. Every call creates a canvas renderer of its
own (`L.canvas()`); the first marker that joins the point group, which is on
the map, makes the map add that renderer (`map.getRenderer`), and nothing in
the script removes a renderer again. -/
def drawPointMap (data : List Record) (s : App) : App :=
  let canvasRenderer := s.nextId
  let s1 := { s with nextId := s.nextId + 1 }
  { s1 with pointLayerGroup := s1.pointLayerGroup ++ data.map pointMarker,
            canvasRenderers :=
              if data.isEmpty then s1.canvasRenderers
              else addLayer canvasRenderer s1.canvasRenderers }

/-- The function `drawClusterMap`. -/
def drawClusterMap (data : List Record) (s : App) : App :=
  let group : ClusterGroup := ⟨s.nextId, data.map clusterMarker⟩
  { s with clusterLayerGroup := some group, nextId := s.nextId + 1,
           mapLayers := addLayer group.id s.mapLayers }

/-- The function `drawHeatMap`. -/
def drawHeatMap (data : List Record) (s : App) : App :=
  if data.length == 0 then s
  else
    let currentRadius := s.heatmapRadiusSlider
    let heatPoints := data.map fun item => (item.Latitude, item.Longitude, (0.5 : ℚ))
    let layer : HeatLayer := ⟨s.nextId, heatPoints, currentRadius, currentRadius / 2, 18⟩
    { s with heatLayer := some layer, nextId := s.nextId + 1,
             mapLayers := addLayer layer.id s.mapLayers }

/-- The function `updateMap`. -/
def updateMap (s : App) : App :=
  let filteredData := applyFilters s
  let mapView := s.mapView
  let s1 := clearAllLayers s
  let s2 := { s1 with heatmapOptionsShown := mapView == "heat" }
  if mapView == "point" then drawPointMap filteredData s2
  else if mapView == "cluster" then drawClusterMap filteredData s2
  else if mapView == "heat" then drawHeatMap filteredData s2
  else s2

/-! ## The subdivision dropdown and its change callback

The dropdown is a SlimSelect widget, a library the script only calls. Its
model here is what the script relies on: `getSelected` returns the values of
the selected options, `setSelected` selects exactly the listed options that
exist, and the widget reports a selection through `afterChange` when the
selected values have changed, at once or through its debounce timer
(`Delivery`). -/

/-- The callback `afterChange` given to the dropdown (lines 102-108), called
with the selected values `info`: a re-render, then every list item is
highlighted exactly when its station is among `info`. -/
def afterChange (info : List String) (s : App) : App :=
  let s1 := updateMap s
  { s1 with listItems := s1.listItems.map fun item =>
      { item with active := info.contains item.station } }

/-- The method `setSelected` of the dropdown: exactly the options whose value
is listed become selected; when the selected values differ from those before
the call, `afterChange` is due with the new selection, and it runs at once or
waits in the debounce timer, replacing a call that waited there. -/
def setSelected (values : List String) (s : App) : App :=
  let before := getSelected s.subdivisionSelect
  let s1 := { s with subdivisionSelect :=
    s.subdivisionSelect.map fun o => { o with selected := values.contains o.value } }
  let info := getSelected s1.subdivisionSelect
  if info != before then
    match s1.delivery with
    | .immediate => afterChange info s1
    | .debounced _ => { s1 with delivery := .debounced (some info) }
  else s1

/-- The debounce timer of the dropdown firing: the `afterChange` call that
waits there, if any, runs. -/
def fireTimer (s : App) : App :=
  match s.delivery with
  | .debounced (some info) => afterChange info { s with delivery := .debounced none }
  | _ => s

/-! ## Boundaries (`loadAllBoundaries`, lines 37-94) -/

/-- The table `FILENAME_TO_SUBDIVISION_MAP`. -/
def FILENAME_TO_SUBDIVISION_MAP : List (String × String) :=
  [("kovilpatti.geojson", "Kovilpatti"),
   ("Maniyachi.geojson", "Maniyachi"),
   ("sathankulam.geojson", "Sathankulam"),
   ("srivaikundam.geojson", "Srivaikundam"),
   ("thiruchendur.geojson", "Tiruchendur"),
   ("Thoothukudi Rural.geojson", "Thoothukudi Rural"),
   ("Thoothukudi Town.geojson", "Thoothukudi Town"),
   ("vilathikulam.geojson", "Vilathikulam")]

/-- The names `loadAllBoundaries` registers in `subdivisionBoundaries`, given
the files whose fetch succeeded with at least one feature: the loop runs over
the keys of the table and registers the name the table gives. -/
def loadAllBoundaries (loaded : List String) : List String :=
  (FILENAME_TO_SUBDIVISION_MAP.filter fun entry => loaded.contains entry.1).map (·.2)

/-- The click handler `onEachFeature` installs on a polygon registered under
`subdivisionName` (lines 63-69). The dropdown exists in every state of
`App`, so the guard of line 65 holds; a click that arrives while the
boundaries are still loading only fits the view. -/
def boundaryClick (subdivisionName : String) (s : App) : App :=
  let s1 := { s with view := .fitBounds subdivisionName }
  setSelected [subdivisionName] s1

/-- A click on a polygon loaded from `fileName`: there is such a polygon only
when the table names the file and its boundary was registered. -/
def polygonClick (fileName : String) (s : App) : App :=
  match FILENAME_TO_SUBDIVISION_MAP.lookup fileName with
  | some subdivisionName =>
    if s.subdivisionBoundaries.contains subdivisionName then boundaryClick subdivisionName s
    else s
  | none => s

/-! ## Event handlers (`populateSubdivisionList`, `setupEventListeners`) -/

/-- The click listener of the subdivision list (lines 116-124) for a click on
its `i`-th item. The probe `subdivisionBoundaries[subdivName]` of line 120
reads an object literal: when it finds a member of `Object.prototype` the
call of `getBounds` throws and the rest of the listener does not run. -/
def listItemClick (i : Nat) (s : App) : App :=
  match s.listItems.get? i with
  | none => s
  | some item =>
    let subdivName := item.station
    let s1 := setSelected [subdivName] s
    match getProp (s1.subdivisionBoundaries.map fun n => (n, ())) subdivName with
    | .inherited => s1
    | probe =>
      let s2 :=
        match probe with
        | .own _ => { s1 with view := .fitBounds subdivName }
        | _ => s1
      let cleared := s2.listItems.map fun (item : ListItem) => { item with active := false }
      { s2 with listItems := cleared.set i ⟨subdivName, true⟩ }

/-- The click listener of the event-type buttons (lines 146-148) for a click
on the button whose `data-crime` is `crime`. -/
def crimeButtonClick (crime : String) (s : App) : App :=
  updateMap { s with activeCrime := crime }

/-- The `change` listener of the `area-filter` checkboxes (line 149), after
the browser has toggled the `i`-th checkbox. -/
def areaFilterChange (i : Nat) (s : App) : App :=
  match s.areaFilters.get? i with
  | none => s
  | some cb =>
    let toggled : Checkbox := ⟨cb.value, !cb.checked⟩
    updateMap { s with areaFilters := s.areaFilters.set i toggled }

/-- The `change` listener of `fromDate` (line 150), after the browser has
stored the new value. -/
def fromDateChange (value : String) (s : App) : App :=
  updateMap { s with fromDate := value }

/-- The `change` listener of `toDate` (line 151). -/
def toDateChange (value : String) (s : App) : App :=
  updateMap { s with toDate := value }

/-- The two `change` listeners of a `mapView` radio (lines 149 and 152), after
the browser has checked the radio of value `value`. -/
def mapViewChange (value : String) (s : App) : App :=
  let s1 := updateMap { s with mapView := value }
  updateMap { s1 with heatmapOptionsShown := value == "heat" }

/-- The `input` listener of the radius slider (lines 153-156), after the
browser has moved the slider to `value`. -/
def heatmapRadiusInput (value : ℚ) (s : App) : App :=
  let s1 := { s with heatmapRadiusSlider := value }
  let s2 := { s1 with radiusValueSpan := value }
  match s2.heatLayer with
  | some h => { s2 with heatLayer := some { h with radius := value, blur := value / 2 } }
  | none => s2

/-- The user changing the selection inside the dropdown itself: the dropdown
stores the new selection and reports it through `afterChange`. -/
def subdivisionSelectChange (values : List String) (s : App) : App :=
  setSelected values s

/-- The click listener of `resetFilters` (lines 157-167), statement by
statement. -/
def resetFilters (s : App) : App :=
  let s1 := { s with activeCrime := "All" }
  let s2 := { s1 with fromDate := "", toDate := "" }
  let s3 := { s2 with areaFilters := s2.areaFilters.map fun (cb : Checkbox) => { cb with checked := true } }
  let allStationValues := s3.subdivisionSelect.map (·.value)
  let s4 := setSelected allStationValues s3
  let s5 := { s4 with listItems := s4.listItems.map fun (item : ListItem) => { item with active := false } }
  let s6 := { s5 with mapView := "point" }
  let s7 := { s6 with heatmapRadiusSlider := 25, radiusValueSpan := 25,
                      heatmapOptionsShown := false }
  { s7 with view := .setView 8.78 78.13 10 }

/-! ## Start-up (`initializeApp`, lines 23-35) -/

/-- What the page's template, which is not part of the sources, decides: the
initial state of the controls the script reads, and whether the release of
the dropdown library that the page loads debounces its events. -/
structure Markup where
  fromDate : String
  toDate : String
  areaFilters : List Checkbox
  mapView : String
  heatmapRadius : ℚ
  radiusValue : ℚ
  heatmapOptionsShown : Bool
  debouncedEvents : Bool
  deriving DecidableEq, Repr

/-- A template whose controls start at the values the reset handler writes:
both date inputs empty, every `area-filter` checkbox checked, the `point`
radio checked, the radius slider and its label at 25, the heat options
hidden. -/
def defaultMarkup (areaValues : List String) (debouncedEvents : Bool) : Markup :=
  ⟨"", "", areaValues.map fun v => ⟨v, true⟩, "point", 25, 25, false, debouncedEvents⟩

/-- The state when `initializeApp` starts: the controls as the template
declares them, the map view of line 3, the empty point group and the empty
variables of line 18, no event-type button yet. -/
def scriptStart (page : Markup) : App where
  allData := []
  activeCrime := ""
  fromDate := page.fromDate
  toDate := page.toDate
  areaFilters := page.areaFilters
  subdivisionSelect := []
  listItems := []
  mapView := page.mapView
  heatmapRadiusSlider := page.heatmapRadius
  radiusValueSpan := page.radiusValue
  heatmapOptionsShown := page.heatmapOptionsShown
  view := .setView 8.78 78.13 10
  subdivisionBoundaries := []
  pointLayerGroup := []
  heatLayer := none
  clusterLayerGroup := none
  mapLayers := []
  canvasRenderers := []
  nextId := 0
  delivery := if page.debouncedEvents then .debounced none else .immediate

/-- The function `initializeApp` once its three fetches have succeeded:
`subdivisions` and `crimeData` are the answers of `/api/filters` and
`/api/data`, `loaded` the boundary files that could be fetched.
`populateCrimeTypeButtons` makes the `All` button the active one;
`initializeSubdivisionDropdown` writes one option per name, its value read
back from the markup (`attributeValue`), and calls `setSelected` with the
names; `populateSubdivisionList` then writes one list item per name, none
highlighted; `updateMap` ends the start-up. -/
def initializeApp (page : Markup) (subdivisions : List String) (crimeData : List Record)
    (loaded : List String) : App :=
  let s0 := { scriptStart page with allData := crimeData }
  let s1 := { s0 with subdivisionBoundaries := loadAllBoundaries loaded }
  let s2 := { s1 with activeCrime := "All" }
  let s3 := { s2 with subdivisionSelect := subdivisions.map fun v => ⟨attributeValue v, false⟩ }
  let s4 := setSelected subdivisions s3
  let s5 := { s4 with listItems := subdivisions.map fun v => ⟨attributeValue v, false⟩ }
  updateMap s5

/-- A page that holds no data, with the `All` button active and every
control at the value the reset handler writes; the scenarios below start
from it. -/
def pageDefaults (areaValues : List String) : App :=
  { scriptStart (defaultMarkup areaValues false) with activeCrime := "All" }

/-! ## User actions -/

/-- The events the page answers: those a user can raise, and the debounce
timer of the dropdown firing. -/
inductive Action where
  | crimeButton (crime : String)
  | areaFilter (i : Nat)
  | fromDate (value : String)
  | toDate (value : String)
  | mapView (value : String)
  | heatmapRadius (value : ℚ)
  | subdivisionSelect (values : List String)
  | listItem (i : Nat)
  | polygon (fileName : String)
  | reset
  | timer
  deriving DecidableEq, Repr

/-- The handler that answers one event. -/
def handle : Action → App → App
  | .crimeButton crime => crimeButtonClick crime
  | .areaFilter i => areaFilterChange i
  | .fromDate value => fromDateChange value
  | .toDate value => toDateChange value
  | .mapView value => mapViewChange value
  | .heatmapRadius value => heatmapRadiusInput value
  | .subdivisionSelect values => subdivisionSelectChange values
  | .listItem i => listItemClick i
  | .polygon fileName => polygonClick fileName
  | .reset => resetFilters
  | .timer => fireTimer

/-- The state after a sequence of events, handled one after the other. -/
def run (actions : List Action) (s : App) : App := actions.foldl (fun st a => handle a st) s

/-! ## What the map shows -/

/-- The overlay objects that are on the map: those the variables refer to
whose identity the map holds. -/
def shownHeat (s : App) : Option HeatLayer :=
  s.heatLayer.filter fun h => s.mapLayers.contains h.id

/-- The cluster group on the map, when the map holds the one the variable
refers to. -/
def shownCluster (s : App) : Option ClusterGroup :=
  s.clusterLayerGroup.filter fun g => s.mapLayers.contains g.id

/-- The number of rendered layers: the point group counts when it holds a
marker, and every heat layer or cluster group on the map counts. -/
def renderedLayerCount (s : App) : Nat :=
  (if s.pointLayerGroup.isEmpty then 0 else 1) + s.mapLayers.length

/-! ## The rules as the specification words them -/

/-- Specification wording of "r.Date >= lower bound": the record has a date
and it is at or after the bound. -/
def specDateAtLeast (lower : String) : Option String → Bool
  | none => false
  | some d => jsStrLe lower d

/-- Specification wording of "r.Date <= upper bound". -/
def specDateAtMost (upper : String) : Option String → Bool
  | none => false
  | some d => jsStrLe d upper

/-- Specification wording of "the list contains the record's field". -/
def specMember (xs : List String) : Option String → Bool
  | none => false
  | some v => decide (v ∈ xs)

/-- The five dimension rules of the specification, read literally, with the
script's `All` as the event-type sentinel and the empty string as an unset
date bound. -/
def specRules (eventType lower upper : String) (categories subdivisions : List String)
    (r : Record) : Bool :=
  (eventType == "All" || r.EventType == some eventType)
    && (categories.isEmpty || specMember categories r.Category)
    && (subdivisions.isEmpty || specMember subdivisions r.Subdivision)
    && (lower == "" || specDateAtLeast lower r.Date)
    && (upper == "" || specDateAtMost upper r.Date)

/-- The five dimension rules with the date rules the script applies: a record
without a date passes both date rules. -/
def dimensionRules (eventType lower upper : String) (categories subdivisions : List String)
    (r : Record) : Bool :=
  (eventType == "All" || r.EventType == some eventType)
    && (categories.isEmpty || specMember categories r.Category)
    && (subdivisions.isEmpty || specMember subdivisions r.Subdivision)
    && (lower == "" || r.Date.isNone || specDateAtLeast lower r.Date)
    && (upper == "" || r.Date.isNone || specDateAtMost upper r.Date)


/-! ## Records and pages of the scenarios -/

/-- A record without a date, of event type "Theft". -/
def undatedRecord : Record := ⟨some "Theft", some "A", none, none, none, 0, 0, some "X"⟩

/-- A record that has none of the text fields. -/
def fieldlessRecord : Record := ⟨none, none, none, none, none, 0, 0, none⟩

/-- The first record of the two-record scenario: Theft, subdivision A,
2024-01-05. -/
def scenarioTheft : Record :=
  ⟨some "Theft", some "A", none, none, some "2024-01-05", 0, 0, none⟩

/-- The second record of the two-record scenario: Fire, subdivision B,
2024-02-01. -/
def scenarioFire : Record :=
  ⟨some "Fire", some "B", none, none, some "2024-02-01", 0, 0, none⟩

/-- The page of the two-record scenario: event type "Theft", dates from
2024-01-01 to 2024-01-31, no category and no subdivision chosen. -/
def scenarioPage : App :=
  { pageDefaults [] with
    allData := [scenarioTheft, scenarioFire], activeCrime := "Theft",
    fromDate := "2024-01-01", toDate := "2024-01-31" }

/-! ## What the map shows against what the page asks for -/

/-- What a heat layer draws: its points and options, without its identity. -/
def HeatLayer.content (h : HeatLayer) : List (Coord × Coord × ℚ) × ℚ × ℚ × Nat :=
  (h.points, h.radius, h.blur, h.maxZoom)

/-- The heat layers and cluster groups on the map that neither variable
refers to: overlays of these two kinds left behind. -/
def strayLayers (s : App) : List Nat :=
  s.mapLayers.filter fun i =>
    s.heatLayer.all (i != ·.id) && s.clusterLayerGroup.all (i != ·.id)

/-- What the map shows: the markers of the point group, the heat layer and
the cluster group on the map, and the heat layers and cluster groups left
behind. -/
structure Rendered where
  points : List Marker
  heat : Option (List (Coord × Coord × ℚ) × ℚ × ℚ × Nat)
  cluster : Option (List Marker)
  stray : List Nat
  deriving DecidableEq, Repr

/-- What the map shows in state `s`. -/
def rendered (s : App) : Rendered :=
  ⟨s.pointLayerGroup, (shownHeat s).map HeatLayer.content, (shownCluster s).map (·.markers),
    strayLayers s⟩

/-- What the renderer of view mode `mapView` builds from `data` on a map
without overlays. -/
def renderOf (mapView : String) (data : List Record) (radius : ℚ) : Rendered :=
  if mapView == "point" then ⟨data.map pointMarker, none, none, []⟩
  else if mapView == "cluster" then ⟨[], none, some (data.map clusterMarker), []⟩
  else if mapView == "heat" then
    if data.isEmpty then ⟨[], none, none, []⟩
    else ⟨[], some (data.map fun item => (item.Latitude, item.Longitude, (0.5 : ℚ)),
            radius, radius / 2, 18), none, []⟩
  else ⟨[], none, none, []⟩

/-- The render that matches the page: the one the renderer of the checked
view mode builds from `applyFilters` on the current filter state. -/
def expectedRender (s : App) : Rendered :=
  renderOf s.mapView (applyFilters s) s.heatmapRadiusSlider

/-- The page of `page` with the layers of `s`: the script's layer variables
and map as `s` has them, every control and `allData` as in `page`. -/
def withPage (page s : App) : App :=
  { page with pointLayerGroup := s.pointLayerGroup, heatLayer := s.heatLayer,
              clusterLayerGroup := s.clusterLayerGroup, mapLayers := s.mapLayers,
              canvasRenderers := s.canvasRenderers, nextId := s.nextId }

/-- A sequence of `updateMap` calls, the `i`-th one made with the page in the
state `pages[i]`. -/
def renderSequence (pages : List App) (s : App) : App :=
  pages.foldl (fun st page => updateMap (withPage page st)) s

/-- The layer state the script starts from (line 18): empty point group, no
heat layer, no cluster group, no overlay on the map. -/
def initialLayers (s : App) : Prop :=
  s.pointLayerGroup = [] ∧ s.heatLayer = none ∧ s.clusterLayerGroup = none ∧ s.mapLayers = []

/-- The page of the scenario in heat view with an event type that no record
has. -/
def noMatchHeatPage : App := { scenarioPage with activeCrime := "Arson", mapView := "heat" }

/-- The map matches the page: no overlay is left behind and what is shown is
the render the checked view mode builds from the current filter state. -/
def Consistent (s : App) : Prop :=
  strayLayers s = [] ∧ rendered s = expectedRender s

instance (s : App) : Decidable (Consistent s) := by unfold Consistent; infer_instance

/-- The map matches the page or is about to: no heat layer or cluster group
is left behind, and either the map matches the page or an `afterChange` call
waits in the dropdown's timer, which will render again. -/
def Settles (s : App) : Prop :=
  strayLayers s = [] ∧ (rendered s = expectedRender s ∨ ∃ info, s.delivery = .debounced (some info))

/-- The filter state of the page: every control that the reset handler
sets. -/
structure FilterSnapshot where
  activeCrime : String
  fromDate : String
  toDate : String
  areaFilters : List Checkbox
  subdivisionSelect : List SelectOption
  listItems : List ListItem
  mapView : String
  heatmapRadius : ℚ
  view : View
  deriving DecidableEq, Repr

/-- The filter state of `s`. -/
def snapshot (s : App) : FilterSnapshot :=
  ⟨s.activeCrime, s.fromDate, s.toDate, s.areaFilters, s.subdivisionSelect, s.listItems,
    s.mapView, s.heatmapRadiusSlider, s.view⟩

/-- The documented defaults over given checkbox values and subdivision
names: event type "All", no date bound, every checkbox checked, every option
selected, no list item highlighted, point view, radius 25, the home view. -/
def defaultSnapshot (areaValues optionValues stations : List String) : FilterSnapshot :=
  ⟨"All", "", "", areaValues.map fun v => ⟨v, true⟩, optionValues.map fun v => ⟨v, true⟩,
    stations.map fun v => ⟨v, false⟩, "point", 25, .setView 8.78 78.13 10⟩

/-- The fixed part of the page: the values of the checkboxes, of the dropdown
options and of the list items. -/
def shape (s : App) : List String × List String × List String :=
  (s.areaFilters.map (·.value), s.subdivisionSelect.map (·.value), s.listItems.map (·.station))

/-- The style the specification promises for an event type: the table entry
of a listed event type, the default entry for every other string, each with
the fixed marker options. -/
def specStyle (crimeType : String) : Style :=
  let listed := ["Fighting / Threatening", "Family Dispute", "Road Accident", "Fire Accident",
    "Woman & Child Related", "Theft / Robbery", "Prohibition Related"]
  let entry : StyleEntry :=
    if listed.contains crimeType then (crimeStyles.lookup crimeType).getD ⟨"#808080", "#404040"⟩
    else ⟨"#808080", "#404040"⟩
  ⟨some entry.fillColor, some entry.color, 6, 1, 1, 0.8⟩

/-- The text the specification promises for a field: the record's own value
when the field is present, "N/A" when it is absent. -/
def specShown : Option String → String
  | some v => v
  | none => "N/A"

/-- The text the script shows for a field: the record's own value when the
field is present and not empty, "N/A" otherwise. -/
def shownOrNA : Option String → String
  | some v => if v = "" then "N/A" else v
  | none => "N/A"

/-- The five labelled entries of a popup, in order, under a rule for showing
a field. -/
def popupEntries (shown : Option String → String) (item : Record) : List (String × String) :=
  [("Event", shown item.EventType), ("Subdivision", shown item.Subdivision),
   ("Police Station", shown item.PoliceStation), ("Complaint", shown item.Complaint),
   ("Date", shown item.Date)]

/-- The markup of a list of labelled entries: each label in bold, followed by
its text, the entries separated by line breaks. -/
def renderEntries (entries : List (String × String)) : String :=
  "<br>".intercalate (entries.map fun e => "<strong>" ++ e.1 ++ ":</strong> " ++ e.2)

/-- A record whose five popup fields are present and not empty. -/
def fullRecord : Record :=
  ⟨some "Theft", some "A", some "Central", some "Stolen bicycle", some "2024-01-05", 0, 0, none⟩

/-- A record whose complaint is present and empty. -/
def emptyComplaintRecord : Record :=
  ⟨some "Theft", some "A", some "Central", some "", some "2024-01-05", 0, 0, none⟩

/-- A page whose only subdivision is Kovilpatti while the boundary file of
Maniyachi was loaded. -/
def unlistedBoundaryPage : App :=
  initializeApp (defaultMarkup [] false) ["Kovilpatti"] [scenarioTheft] ["Maniyachi.geojson"]

/-- The page of `unlistedBoundaryPage` when the dropdown debounces its
callback, once the timer set during start-up has fired. -/
def unlistedBoundaryPageDebounced : App :=
  fireTimer
    (initializeApp (defaultMarkup [] true) ["Kovilpatti"] [scenarioTheft] ["Maniyachi.geojson"])

/-- A page with two subdivisions and the boundary of Kovilpatti loaded. -/
def kovilpattiPage : App :=
  initializeApp (defaultMarkup [] false) ["Kovilpatti", "Maniyachi"] [scenarioTheft]
    ["kovilpatti.geojson"]

/-- The page after start-up over two subdivisions and the two records of the
scenario. -/
def startPage : App :=
  initializeApp (defaultMarkup [] false) ["A", "B"] [scenarioTheft, scenarioFire] []

/-- The page after start-up when the one subdivision is named `A"B`. -/
def quotedNamePage : App :=
  initializeApp (defaultMarkup [] false) ["A\"B"] [scenarioTheft] []

/-- The page after the user has checked the cluster radio and then clicked
the reset button. -/
def clusterThenReset : App := run [.mapView "cluster", .reset] startPage

/-- The page of `startPage` when the dropdown debounces its callback, once
the timer set during start-up has fired. -/
def startPageDebounced : App :=
  fireTimer (initializeApp (defaultMarkup [] true) ["A", "B"] [scenarioTheft, scenarioFire] [])

/-- The page after the cluster radio, the reset button and the debounce
timer, when the dropdown debounces its callback. -/
def clusterThenResetDebounced : App :=
  run [.mapView "cluster", .reset, .timer] startPageDebounced

/-- A page in heat view over the two records of the scenario, rendered with
the slider at 25. -/
def heatPage : App := updateMap { scenarioPage with activeCrime := "All", mapView := "heat" }

/-! # Theorems -/

/-! ## The filter: C1, C2, C3 -/

theorem keepItem_eq_rules (ac fd td : String) (sa ss : List String) (item : Record) :
    keepItem ac fd td sa ss item =
      (eventTypeRule ac item && categoryRule sa item && subdivisionRule ss item
        && fromDateRule fd item && toDateRule td item) := by
  unfold keepItem eventTypeRule categoryRule subdivisionRule fromDateRule toDateRule
  by_cases h1 : (ac != "All" && item.EventType != some ac) = true
  · simp [h1]
  · by_cases h2 : (decide (sa.length > 0) && !includes sa item.Category) = true
    · simp [h1, h2]
    · by_cases h3 : (decide (ss.length > 0) && !includes ss item.Subdivision) = true
      · simp [h1, h2, h3]
      · by_cases h4 : (truthy fd && jsLt item.Date fd) = true
        · simp [h1, h2, h3, h4]
        · by_cases h5 : (truthy td && jsGt item.Date td) = true
          · simp [h1, h2, h3, h4, h5]
          · simp [h1, h2, h3, h4, h5]

theorem unitsLt_eq_not_unitsLe (x y : List Nat) : unitsLt x y = !unitsLe y x := by
  induction x generalizing y with
  | nil => cases y <;> simp [unitsLt, unitsLe]
  | cons a as ih =>
    cases y with
    | nil => simp [unitsLt, unitsLe]
    | cons b bs =>
      simp only [unitsLt, unitsLe]
      by_cases h1 : a < b
      · have h2 : ¬ b < a := by omega
        simp [h1, h2]
      · by_cases h2 : b < a
        · simp [h1, h2]
        · simp [h1, h2, ih]

theorem eventTypeRule_eq (ac : String) (r : Record) :
    eventTypeRule ac r = (ac == "All" || r.EventType == some ac) := by
  unfold eventTypeRule
  by_cases h1 : ac = "All" <;> by_cases h2 : r.EventType = some ac <;> simp [h1, h2, bne]

theorem includes_eq_specMember (xs : List String) (v : Option String) :
    includes xs v = specMember xs v := by
  cases v <;> simp [includes, specMember]

theorem categoryRule_eq (sa : List String) (r : Record) :
    categoryRule sa r = (sa.isEmpty || specMember sa r.Category) := by
  unfold categoryRule
  rw [includes_eq_specMember]
  cases sa <;> simp

theorem subdivisionRule_eq (ss : List String) (r : Record) :
    subdivisionRule ss r = (ss.isEmpty || specMember ss r.Subdivision) := by
  unfold subdivisionRule
  rw [includes_eq_specMember]
  cases ss <;> simp

theorem fromDateRule_eq (fd : String) (r : Record) :
    fromDateRule fd r = (fd == "" || r.Date.isNone || specDateAtLeast fd r.Date) := by
  unfold fromDateRule truthy
  cases hd : r.Date with
  | none => simp [jsLt]
  | some d =>
    simp only [jsLt, specDateAtLeast, jsStrLt, jsStrLe, unitsLt_eq_not_unitsLe, Option.isNone]
    by_cases h : fd = "" <;> simp [h, bne]

theorem toDateRule_eq (td : String) (r : Record) :
    toDateRule td r = (td == "" || r.Date.isNone || specDateAtMost td r.Date) := by
  unfold toDateRule truthy
  cases hd : r.Date with
  | none => simp [jsGt]
  | some d =>
    simp only [jsGt, specDateAtMost, jsStrLt, jsStrLe, unitsLt_eq_not_unitsLe, Option.isNone]
    by_cases h : td = "" <;> simp [h, bne]

theorem keepItem_eq_dimensionRules (ac fd td : String) (sa ss : List String) (r : Record) :
    keepItem ac fd td sa ss r = dimensionRules ac fd td sa ss r := by
  rw [keepItem_eq_rules, eventTypeRule_eq, categoryRule_eq, subdivisionRule_eq,
    fromDateRule_eq, toDateRule_eq]
  rfl

/-- C1 fails on a record without a date: with a lower or an upper date bound
set, the guards of lines 179-180 keep it, because comparing a missing field
with a string is false, although the rules "r.Date >= lower bound" and
"r.Date <= upper bound" do not hold for it; the sibling guards of lines
176-178 drop a record that lacks the field they filter on. For every record
that has a date the predicate keeps it exactly when the five rules of the
claim hold, and the two-record scenario yields exactly its first record. -/
theorem undated_record_escapes_date_bounds :
    keepItem "All" "2024-01-01" "" [] [] undatedRecord = true
      ∧ specRules "All" "2024-01-01" "" [] [] undatedRecord = false
      ∧ keepItem "All" "" "2024-01-31" [] [] undatedRecord = true
      ∧ specRules "All" "" "2024-01-31" [] [] undatedRecord = false
      ∧ applyFilters { scenarioPage with allData := [undatedRecord, scenarioFire] }
          = [undatedRecord]
      ∧ keepItem "Theft" "" "" [] [] fieldlessRecord = false
      ∧ keepItem "All" "" "" ["X"] [] fieldlessRecord = false
      ∧ keepItem "All" "" "" [] ["A"] fieldlessRecord = false
      ∧ (∀ (ac fd td : String) (sa ss : List String) (r : Record), r.Date.isSome = true →
          (keepItem ac fd td sa ss r = true ↔ specRules ac fd td sa ss r = true))
      ∧ (∀ (s : App) (r : Record), r.Date.isSome = true →
          (r ∈ applyFilters s ↔
            r ∈ s.allData ∧ specRules s.activeCrime s.fromDate s.toDate (selectedAreas s)
              (getSelected s.subdivisionSelect) r = true))
      ∧ applyFilters scenarioPage = [scenarioTheft] := by
  have key : ∀ (ac fd td : String) (sa ss : List String) (r : Record), r.Date.isSome = true →
      keepItem ac fd td sa ss r = specRules ac fd td sa ss r := by
    intro ac fd td sa ss r hr
    rw [keepItem_eq_dimensionRules]
    cases hd : r.Date with
    | none => simp [hd] at hr
    | some d => simp [dimensionRules, specRules, hd]
  refine ⟨by decide, by decide, by decide, by decide, by decide, by decide, by decide,
    by decide, ?_, ?_, by decide⟩
  · intro ac fd td sa ss r hr
    rw [key ac fd td sa ss r hr]
  · intro s r hr
    simp [applyFilters, List.mem_filter, key _ _ _ _ _ r hr]

/-- C2: an empty category list makes the category rule pass every record and
an empty subdivision list makes the subdivision rule pass every record,
whatever the other dimensions are (the predicate then depends on the other
rules alone); with both lists empty, the event type at "All" and no date
bound, applyFilters returns all of allData. -/
theorem empty_selection_matches_all :
    (∀ item, categoryRule [] item = true)
      ∧ (∀ item, subdivisionRule [] item = true)
      ∧ (∀ (ac fd td : String) (ss : List String) (item : Record),
          keepItem ac fd td [] ss item
            = (eventTypeRule ac item && subdivisionRule ss item && fromDateRule fd item
                && toDateRule td item))
      ∧ (∀ (ac fd td : String) (sa : List String) (item : Record),
          keepItem ac fd td sa [] item
            = (eventTypeRule ac item && categoryRule sa item && fromDateRule fd item
                && toDateRule td item))
      ∧ (∀ s : App, selectedAreas s = [] → getSelected s.subdivisionSelect = [] →
          s.activeCrime = "All" → s.fromDate = "" → s.toDate = "" →
          applyFilters s = s.allData) := by
  refine ⟨?_, ?_, ?_, ?_, ?_⟩
  · intro item
    simp [categoryRule]
  · intro item
    simp [subdivisionRule]
  · intro ac fd td ss item
    rw [keepItem_eq_rules]
    simp [categoryRule]
  · intro ac fd td sa item
    rw [keepItem_eq_rules]
    simp [subdivisionRule]
  · intro s hAreas hSubs hc hf ht
    unfold applyFilters
    rw [List.filter_eq_self]
    intro item _
    rw [keepItem_eq_rules]
    simp [hAreas, hSubs, hc, hf, ht, categoryRule, subdivisionRule, eventTypeRule,
      fromDateRule, toDateRule, truthy]

/-- C2 at a concrete page: the two records of the scenario, no checkbox and
no subdivision chosen, event type "All", no date bound: both records are
returned. -/
theorem empty_selection_matches_all_witness :
    selectedAreas { pageDefaults [] with allData := [scenarioTheft, scenarioFire] } = []
      ∧ applyFilters { pageDefaults [] with allData := [scenarioTheft, scenarioFire] }
          = [scenarioTheft, scenarioFire] :=
  ⟨rfl, empty_selection_matches_all.2.2.2.2
    { pageDefaults [] with allData := [scenarioTheft, scenarioFire] } rfl rfl rfl rfl rfl⟩

/-- C3: the list applyFilters returns is a subsequence of allData (same
relative order), each of its records occurs in allData, it is no longer than
allData, and the render that calls it leaves allData as it was. -/
theorem applyFilters_sublist (s : App) :
    List.Sublist (applyFilters s) s.allData
      ∧ (∀ r, r ∈ applyFilters s → r ∈ s.allData)
      ∧ (applyFilters s).length ≤ s.allData.length
      ∧ (updateMap s).allData = s.allData := by
  refine ⟨List.filter_sublist _, ?_, List.length_filter_le _ _, ?_⟩
  · intro r hr
    exact (List.mem_filter.mp hr).1
  · simp only [updateMap]
    split_ifs <;> simp [drawPointMap, drawClusterMap, drawHeatMap, clearAllLayers] <;>
      (try split_ifs) <;> (repeat' split) <;> rfl

/-! ## Teardown and rendering: C5 -/

theorem clearAllLayers_eq (s : App) :
    clearAllLayers s =
      { s with pointLayerGroup := [], heatLayer := none, clusterLayerGroup := none,
               mapLayers := strayLayers s } := by
  unfold clearAllLayers strayLayers
  cases hh : s.heatLayer <;> cases hc : s.clusterLayerGroup <;>
    simp [removeLayer, List.filter_filter, hh, hc, Bool.and_comm]

theorem rendered_updateMap (s : App) (h : strayLayers s = []) :
    rendered (updateMap s) = expectedRender s := by
  unfold updateMap expectedRender renderOf
  rw [clearAllLayers_eq, h]
  split_ifs <;>
    simp_all [rendered, drawPointMap, drawClusterMap, drawHeatMap, shownHeat, shownCluster,
      strayLayers, addLayer, HeatLayer.content, List.isEmpty_iff]
  · exact ⟨_, ⟨rfl, rfl⟩, rfl⟩
  · exact ⟨_, ⟨rfl, rfl⟩, rfl, rfl, rfl, rfl⟩

theorem strayLayers_updateMap (s : App) (h : strayLayers s = []) :
    strayLayers (updateMap s) = [] := by
  have := rendered_updateMap s h
  have h2 : (rendered (updateMap s)).stray = (expectedRender s).stray := by rw [this]
  simp only [rendered] at h2
  rw [h2]
  unfold expectedRender renderOf
  split_ifs <;> rfl

theorem updateMap_frame (s : App) :
    (updateMap s).allData = s.allData ∧ (updateMap s).activeCrime = s.activeCrime
      ∧ (updateMap s).fromDate = s.fromDate ∧ (updateMap s).toDate = s.toDate
      ∧ (updateMap s).areaFilters = s.areaFilters
      ∧ (updateMap s).subdivisionSelect = s.subdivisionSelect
      ∧ (updateMap s).listItems = s.listItems ∧ (updateMap s).mapView = s.mapView
      ∧ (updateMap s).heatmapRadiusSlider = s.heatmapRadiusSlider
      ∧ (updateMap s).radiusValueSpan = s.radiusValueSpan
      ∧ (updateMap s).view = s.view
      ∧ (updateMap s).subdivisionBoundaries = s.subdivisionBoundaries
      ∧ (updateMap s).delivery = s.delivery := by
  simp only [updateMap, clearAllLayers_eq]
  split_ifs <;> simp [drawPointMap, drawClusterMap, drawHeatMap]
  split_ifs <;> simp

theorem applyFilters_updateMap (s : App) : applyFilters (updateMap s) = applyFilters s := by
  obtain ⟨h1, h2, h3, h4, h5, h6, -⟩ := updateMap_frame s
  simp [applyFilters, selectedAreas, h1, h2, h3, h4, h5, h6]

theorem expectedRender_updateMap (s : App) :
    expectedRender (updateMap s) = expectedRender s := by
  obtain ⟨-, -, -, -, -, -, -, h8, h9, -⟩ := updateMap_frame s
  simp [expectedRender, applyFilters_updateMap, h8, h9]

theorem renderedLayerCount_updateMap (s : App) (h : strayLayers s = []) :
    renderedLayerCount (updateMap s) =
      if s.mapView = "cluster" ∨ ((s.mapView = "point" ∨ s.mapView = "heat") ∧ applyFilters s ≠ [])
      then 1 else 0 := by
  simp only [updateMap, clearAllLayers_eq, h]
  by_cases h1 : s.mapView = "point"
  · cases hd : applyFilters s <;>
      simp [h1, hd, drawPointMap, renderedLayerCount]
  · by_cases h2 : s.mapView = "cluster"
    · simp [h2, drawClusterMap, renderedLayerCount, addLayer]
    · by_cases h3 : s.mapView = "heat"
      · cases hd : applyFilters s <;>
          simp [h3, hd, drawHeatMap, renderedLayerCount, addLayer]
      · simp [h1, h2, h3, renderedLayerCount]

theorem strayLayers_withPage (page s : App) : strayLayers (withPage page s) = strayLayers s := rfl

theorem strayLayers_renderSequence (pages : List App) (s : App) (h : strayLayers s = []) :
    strayLayers (renderSequence pages s) = [] := by
  induction pages generalizing s with
  | nil => exact h
  | cons p ps ih =>
    exact ih _ (strayLayers_updateMap _ (by rw [strayLayers_withPage]; exact h))

theorem renderSequence_append (ps : List App) (p : App) (s : App) :
    renderSequence (ps ++ [p]) s = updateMap (withPage p (renderSequence ps s)) := by
  simp [renderSequence, List.foldl_append]

theorem expectedRender_withPage (page s : App) :
    expectedRender (withPage page s) = expectedRender page := rfl

theorem applyFilters_withPage (page s : App) :
    applyFilters (withPage page s) = applyFilters page := rfl

theorem canvasRenderers_updateMap (s : App) :
    s.canvasRenderers <+: (updateMap s).canvasRenderers := by
  simp only [updateMap, clearAllLayers_eq]
  split_ifs <;> simp only [drawPointMap, drawClusterMap, drawHeatMap, addLayer]
  · split_ifs <;> simp
  · exact List.prefix_refl _
  · split_ifs <;> exact List.prefix_refl _
  · exact List.prefix_refl _

/-- Point renders leave their canvas renderers on the map: after three
renders of the scenario in point view, three renderers are on the map, one
of each call, beside the one marker of the last call. -/
theorem canvas_renderers_accumulate :
    (renderSequence [scenarioPage, scenarioPage, scenarioPage] (pageDefaults [])).canvasRenderers
        = [0, 1, 2]
      ∧ (renderSequence [scenarioPage, scenarioPage, scenarioPage]
          (pageDefaults [])).pointLayerGroup.length = 1 := by
  decide

/-- C5, as stated, fails: after an updateMap call in cluster view and one in
heat view whose filter matches no record, no rendered layer exists at all,
not exactly one; and after a call in point view and one in cluster view, the
canvas renderer that the point call put on the map is still there. -/
theorem heat_view_of_no_records_renders_nothing :
    initialLayers (pageDefaults [])
      ∧ applyFilters noMatchHeatPage = []
      ∧ renderedLayerCount
          (renderSequence [{ scenarioPage with mapView := "cluster" }, noMatchHeatPage]
            (pageDefaults [])) = 0
      ∧ (renderSequence [scenarioPage, { scenarioPage with mapView := "cluster" }]
          (pageDefaults [])).canvasRenderers = [0] := by
  refine ⟨⟨rfl, rfl, rfl, rfl⟩, ?_, ?_, ?_⟩ <;> decide

/-- C5, amended: from the initial layer state, after any sequence of
updateMap calls at most one rendered layer exists (point markers, a cluster
group or a heat layer, never two of them), no heat layer or cluster group is
on the map that the variables do not hold, and the markers, the cluster
group and the heat layer shown are exactly what the last call built (no
marker, cluster group or heat layer of an earlier call remains); exactly one
rendered layer exists when the last call was in cluster view, or in point or
heat view over a non-empty filtered list, and none otherwise. -/
theorem at_most_one_rendered_layer (s : App) (pages : List App) (h0 : initialLayers s) :
    renderedLayerCount (renderSequence pages s) ≤ 1
      ∧ strayLayers (renderSequence pages s) = []
      ∧ ∀ (ps : List App) (p : App), pages = ps ++ [p] →
          rendered (renderSequence pages s) = expectedRender p
            ∧ renderedLayerCount (renderSequence pages s) =
                if p.mapView = "cluster"
                    ∨ ((p.mapView = "point" ∨ p.mapView = "heat") ∧ applyFilters p ≠ [])
                then 1 else 0 := by
  obtain ⟨hp, hh, hc, hm⟩ := h0
  have hs : strayLayers s = [] := by simp [strayLayers, hm]
  have key : ∀ (ps : List App) (p : App), pages = ps ++ [p] →
      rendered (renderSequence pages s) = expectedRender p
        ∧ renderedLayerCount (renderSequence pages s) =
            if p.mapView = "cluster"
                ∨ ((p.mapView = "point" ∨ p.mapView = "heat") ∧ applyFilters p ≠ [])
            then 1 else 0 := by
    intro ps p hps
    subst hps
    have hq : strayLayers (withPage p (renderSequence ps s)) = [] := by
      rw [strayLayers_withPage]; exact strayLayers_renderSequence ps s hs
    rw [renderSequence_append]
    refine ⟨?_, ?_⟩
    · rw [rendered_updateMap _ hq, expectedRender_withPage]
    · rw [renderedLayerCount_updateMap _ hq]
      rfl
  refine ⟨?_, strayLayers_renderSequence pages s hs, key⟩
  rcases List.eq_nil_or_concat pages with hnil | ⟨ps, p, hps⟩
  · subst hnil
    simp [renderSequence, renderedLayerCount, hp, hm]
  · have := (key ps p (by simpa using hps)).2
    rw [this]
    split_ifs <;> simp

/-- C5, amended, at a concrete sequence: cluster view, then heat view, then
point view over the two-record scenario. -/
theorem at_most_one_rendered_layer_witness :
    renderedLayerCount
        (renderSequence
          [{ scenarioPage with mapView := "cluster" }, { scenarioPage with mapView := "heat" },
            scenarioPage]
          (pageDefaults [])) ≤ 1 :=
  (at_most_one_rendered_layer (pageDefaults []) _ ⟨rfl, rfl, rfl, rfl⟩).1

/-! ## The handlers against the map: C4 -/

theorem consistent_updateMap (s : App) (h : strayLayers s = []) : Consistent (updateMap s) :=
  ⟨strayLayers_updateMap s h, by rw [rendered_updateMap s h, expectedRender_updateMap]⟩

theorem consistent_of_same_render (s t : App) (h : Consistent s)
    (h1 : t.pointLayerGroup = s.pointLayerGroup) (h2 : t.heatLayer = s.heatLayer)
    (h3 : t.clusterLayerGroup = s.clusterLayerGroup) (h4 : t.mapLayers = s.mapLayers)
    (h5 : t.mapView = s.mapView) (h6 : t.heatmapRadiusSlider = s.heatmapRadiusSlider)
    (h7 : applyFilters t = applyFilters s) : Consistent t := by
  obtain ⟨hs, hr⟩ := h
  refine ⟨?_, ?_⟩
  · simpa [strayLayers, h2, h3, h4] using hs
  · have e1 : rendered t = rendered s := by
      simp [rendered, shownHeat, shownCluster, strayLayers, h1, h2, h3, h4]
    have e2 : expectedRender t = expectedRender s := by
      simp [expectedRender, h5, h6, h7]
    rw [e1, e2, hr]

theorem consistent_afterChange (info : List String) (s : App) (h : strayLayers s = []) :
    Consistent (afterChange info s) := by
  unfold afterChange
  exact consistent_of_same_render (updateMap s) _ (consistent_updateMap s h)
    rfl rfl rfl rfl rfl rfl rfl

theorem settles_of_consistent (s : App) (h : Consistent s) : Settles s :=
  ⟨h.1, Or.inl h.2⟩

theorem settles_of_same_render (s t : App) (h : Settles s)
    (h1 : t.pointLayerGroup = s.pointLayerGroup) (h2 : t.heatLayer = s.heatLayer)
    (h3 : t.clusterLayerGroup = s.clusterLayerGroup) (h4 : t.mapLayers = s.mapLayers)
    (h5 : t.mapView = s.mapView) (h6 : t.heatmapRadiusSlider = s.heatmapRadiusSlider)
    (h7 : applyFilters t = applyFilters s) (h8 : t.delivery = s.delivery) : Settles t := by
  obtain ⟨hs, hr | ⟨info, hp⟩⟩ := h
  · exact settles_of_consistent t
      (consistent_of_same_render s t ⟨hs, hr⟩ h1 h2 h3 h4 h5 h6 h7)
  · refine ⟨?_, Or.inr ⟨info, by rw [h8, hp]⟩⟩
    simpa [strayLayers, h2, h3, h4] using hs

theorem consistent_fireTimer (s : App) (h : Settles s) : Consistent (fireTimer s) := by
  obtain ⟨hs, hr⟩ := h
  unfold fireTimer
  split
  · rename_i info hd
    exact consistent_afterChange info _ hs
  · rename_i hd
    rcases hr with hr | ⟨info, hp⟩
    · exact ⟨hs, hr⟩
    · exact absurd hp (hd info)

theorem settles_setSelected (values : List String) (s : App) (h : Settles s) :
    Settles (setSelected values s) := by
  unfold setSelected
  simp only
  split_ifs with hc
  · split
    · exact settles_of_consistent _ (consistent_afterChange _ _ h.1)
    · exact ⟨h.1, Or.inr ⟨_, rfl⟩⟩
  · refine settles_of_same_render s _ h rfl rfl rfl rfl rfl rfl ?_ rfl
    simp only [bne_iff_ne, ne_eq, not_not] at hc
    simp only [applyFilters, selectedAreas]
    rw [hc]

theorem settles_polygonClick (fileName : String) (s : App) (h : Settles s) :
    Settles (polygonClick fileName s) := by
  unfold polygonClick
  split
  · split_ifs
    · exact settles_setSelected _ _
        (settles_of_same_render s _ h rfl rfl rfl rfl rfl rfl rfl rfl)
    · exact h
  · exact h

theorem settles_listItemClick (i : Nat) (s : App) (h : Settles s) :
    Settles (listItemClick i s) := by
  unfold listItemClick
  split
  · exact h
  · rename_i item _
    have hs := settles_setSelected [item.station] s h
    simp only
    split
    · exact hs
    · split <;> exact settles_of_same_render _ _ hs rfl rfl rfl rfl rfl rfl rfl rfl

theorem consistent_heatmapRadiusInput (v : ℚ) (s : App) (h : Consistent s) :
    Consistent (heatmapRadiusInput v s) := by
  obtain ⟨hs, hr⟩ := h
  unfold heatmapRadiusInput
  cases hh : s.heatLayer with
  | none =>
    simp only [hh]
    have : rendered s = expectedRender s := hr
    refine ⟨by simpa [strayLayers, hh] using hs, ?_⟩
    simp only [rendered, expectedRender, renderOf, shownHeat, shownCluster, strayLayers, hh,
      applyFilters, selectedAreas] at this ⊢
    split_ifs at this ⊢ <;> simp_all
  | some hl =>
    simp only [hh]
    have : rendered s = expectedRender s := hr
    refine ⟨by simpa [strayLayers, hh] using hs, ?_⟩
    simp only [rendered, expectedRender, renderOf, shownHeat, shownCluster, strayLayers, hh,
      applyFilters, selectedAreas] at this ⊢
    split_ifs at this ⊢ <;> simp_all [HeatLayer.content]
    obtain ⟨-, ⟨a, ⟨rfl, hm⟩, hp, -, -, hz⟩, -⟩ := this
    exact ⟨_, ⟨rfl, hm⟩, hp, rfl, rfl, hz⟩

theorem settles_heatmapRadiusInput (v : ℚ) (s : App) (h : Settles s) :
    Settles (heatmapRadiusInput v s) := by
  obtain ⟨hs, hr | ⟨info, hp⟩⟩ := h
  · exact settles_of_consistent _ (consistent_heatmapRadiusInput v s ⟨hs, hr⟩)
  · unfold heatmapRadiusInput
    cases hh : s.heatLayer with
    | none => exact ⟨by simpa [strayLayers, hh] using hs, Or.inr ⟨info, hp⟩⟩
    | some hl => exact ⟨by simpa [strayLayers, hh] using hs, Or.inr ⟨info, hp⟩⟩

theorem settles_handle (a : Action) (s : App) (ha : a ≠ .reset) (h : Settles s) :
    Settles (handle a s) := by
  cases a with
  | crimeButton crime => exact settles_of_consistent _ (consistent_updateMap _ h.1)
  | areaFilter i =>
    simp only [handle, areaFilterChange]
    split
    · exact h
    · exact settles_of_consistent _ (consistent_updateMap _ h.1)
  | fromDate v => exact settles_of_consistent _ (consistent_updateMap _ h.1)
  | toDate v => exact settles_of_consistent _ (consistent_updateMap _ h.1)
  | mapView v =>
    exact settles_of_consistent _
      (consistent_updateMap _ (strayLayers_updateMap { s with mapView := v } h.1))
  | heatmapRadius v => exact settles_heatmapRadiusInput v s h
  | subdivisionSelect values => exact settles_setSelected values s h
  | listItem i => exact settles_listItemClick i s h
  | polygon f => exact settles_polygonClick f s h
  | reset => exact absurd rfl ha
  | timer => exact settles_of_consistent _ (consistent_fireTimer s h)

theorem settles_run (actions : List Action) (s : App) (hr : Action.reset ∉ actions)
    (h : Settles s) : Settles (run actions s) := by
  induction actions generalizing s with
  | nil => exact h
  | cons a as ih =>
    simp only [List.mem_cons, not_or] at hr
    exact ih _ hr.2 (settles_handle a s (fun e => hr.1 e.symm) h)

theorem strayLayers_setSelected (values : List String) (s : App) (h : strayLayers s = []) :
    strayLayers (setSelected values s) = [] := by
  unfold setSelected
  simp only
  split_ifs
  · split
    · refine (consistent_afterChange _ _ ?_).1
      exact h
    · exact h
  · exact h

theorem consistent_initializeApp (page : Markup) (subdivisions : List String)
    (crimeData : List Record) (loaded : List String) :
    Consistent (initializeApp page subdivisions crimeData loaded) := by
  unfold initializeApp
  apply consistent_updateMap
  exact strayLayers_setSelected _ _ rfl

theorem settles_initializeApp (page : Markup) (subdivisions : List String)
    (crimeData : List Record) (loaded : List String) :
    Settles (initializeApp page subdivisions crimeData loaded) :=
  settles_of_consistent _ (consistent_initializeApp _ _ _ _)

theorem consistent_mapViewChange (v : String) (s : App) (h : strayLayers s = []) :
    Consistent (mapViewChange v s) := by
  unfold mapViewChange
  apply consistent_updateMap
  exact strayLayers_updateMap { s with mapView := v } h

/-- Every handler but the reset handler keeps the map matching the page once
the dropdown has delivered its callback: from start-up, after any sequence of
events without a reset, the map matches the page as soon as the debounce
timer has fired (at once when the dropdown calls back inside the call). -/
theorem consistent_run (page : Markup) (subdivisions : List String) (crimeData : List Record)
    (loaded : List String) (actions : List Action) (hr : Action.reset ∉ actions) :
    Consistent (fireTimer (run actions (initializeApp page subdivisions crimeData loaded))) :=
  consistent_fireTimer _ (settles_run actions _ hr (settles_initializeApp _ _ _ _))

/-- C4 fails for the reset handler: after the cluster radio and then the
reset button, the page is in point view with the default filter state, while
the map still shows the cluster group and no point marker; the render that
matches the page is the two point markers and no cluster group. Before the
reset the map matched the page. The same holds when the dropdown debounces
its callback, also after its timer has fired. -/
theorem reset_leaves_stale_cluster_layer :
    Consistent (run [.mapView "cluster"] startPage)
      ∧ clusterThenReset.mapView = "point"
      ∧ (rendered clusterThenReset).points = []
      ∧ (rendered clusterThenReset).cluster
          = some [clusterMarker scenarioTheft, clusterMarker scenarioFire]
      ∧ (expectedRender clusterThenReset).points
          = [pointMarker scenarioTheft, pointMarker scenarioFire]
      ∧ (expectedRender clusterThenReset).cluster = none
      ∧ ¬ Consistent clusterThenReset
      ∧ Consistent (run [.mapView "cluster"] startPageDebounced)
      ∧ clusterThenResetDebounced.mapView = "point"
      ∧ (rendered clusterThenResetDebounced).points = []
      ∧ (rendered clusterThenResetDebounced).cluster
          = some [clusterMarker scenarioTheft, clusterMarker scenarioFire]
      ∧ (expectedRender clusterThenResetDebounced).cluster = none
      ∧ ¬ Consistent clusterThenResetDebounced := by
  refine ⟨?_, by decide, by decide, rfl, rfl, by decide, ?_, ?_, by decide, by decide, rfl,
    by decide, ?_⟩
  · exact consistent_mapViewChange "cluster" startPage (consistent_initializeApp _ _ _ _).1
  · intro h
    have hc := congrArg Rendered.cluster h.2
    exact absurd hc (by decide)
  · exact consistent_mapViewChange "cluster" startPageDebounced
      (consistent_fireTimer _ (settles_initializeApp _ _ _ _)).1
  · intro h
    have hc := congrArg Rendered.cluster h.2
    exact absurd hc (by decide)

/-! ## The reset handler: C6 -/

theorem shape_updateMap (s : App) : shape (updateMap s) = shape s := by
  obtain ⟨-, -, -, -, h5, h6, h7, -⟩ := updateMap_frame s
  simp [shape, h5, h6, h7]

theorem shape_afterChange (info : List String) (s : App) :
    shape (afterChange info s) = shape s := by
  have := shape_updateMap s
  simp only [shape, afterChange, Prod.mk.injEq] at this ⊢
  obtain ⟨h1, h2, h3⟩ := this
  refine ⟨h1, h2, ?_⟩
  rw [← h3]
  simp [List.map_map, Function.comp_def]

theorem shape_setSelected (values : List String) (s : App) :
    shape (setSelected values s) = shape s := by
  unfold setSelected
  simp only
  split_ifs
  · split
    · rw [shape_afterChange]
      simp [shape, List.map_map, Function.comp_def]
    · simp [shape, List.map_map, Function.comp_def]
  · simp [shape, List.map_map, Function.comp_def]

theorem shape_fireTimer (s : App) : shape (fireTimer s) = shape s := by
  unfold fireTimer
  split
  · rw [shape_afterChange]; rfl
  · rfl

theorem shape_listItemClick (i : Nat) (s : App) : shape (listItemClick i s) = shape s := by
  unfold listItemClick
  split
  · rfl
  · rename_i item hitem
    have hs := shape_setSelected [item.station] s
    have hlen : (setSelected [item.station] s).listItems.map (·.station) = s.listItems.map (·.station) := by
      simp only [shape, Prod.mk.injEq] at hs
      exact hs.2.2
    have hset : ((List.map (fun (item : ListItem) => { item with active := false })
          (setSelected [item.station] s).listItems).set i ⟨item.station, true⟩).map (·.station)
        = s.listItems.map (·.station) := by
      rw [List.map_set, List.map_map]
      have : ((fun x : ListItem => x.station) ∘ fun (item : ListItem) => { item with active := false })
          = fun x : ListItem => x.station := rfl
      rw [this, hlen]
      apply List.ext_getElem
      · simp
      · intro n h1 h2
        rw [List.getElem_set]
        split_ifs with hn
        · subst hn
          simp only [List.getElem_map]
          have := List.get?_eq_some.mp hitem
          obtain ⟨hlt, hget⟩ := this
          simp only [List.get_eq_getElem] at hget
          rw [hget]
        · rfl
    simp only
    split
    · exact hs
    · split
      · simp only [shape, Prod.mk.injEq] at hs ⊢
        exact ⟨hs.1, hs.2.1, hset⟩
      · simp only [shape, Prod.mk.injEq] at hs ⊢
        exact ⟨hs.1, hs.2.1, hset⟩

theorem shape_areaFilterChange (i : Nat) (s : App) : shape (areaFilterChange i s) = shape s := by
  unfold areaFilterChange
  split
  · rfl
  · rename_i cb hcb
    refine (shape_updateMap _).trans ?_
    simp only [shape, Prod.mk.injEq, and_true]
    rw [List.map_set]
    apply List.ext_getElem
    · simp
    · intro n h1 h2
      rw [List.getElem_set]
      split_ifs with hn
      · subst hn
        simp only [List.getElem_map]
        obtain ⟨hlt, hget⟩ := List.get?_eq_some.mp hcb
        simp only [List.get_eq_getElem] at hget
        rw [hget]
      · rfl

theorem shape_resetFilters (s : App) : shape (resetFilters s) = shape s := by
  unfold resetFilters
  simp only
  have hs := shape_setSelected (s.subdivisionSelect.map (·.value))
    { s with activeCrime := "All", fromDate := "", toDate := "",
             areaFilters := s.areaFilters.map fun (cb : Checkbox) => { cb with checked := true } }
  simp only [shape, Prod.mk.injEq, List.map_map] at hs ⊢
  refine ⟨?_, hs.2.1, ?_⟩
  · rw [hs.1]; rfl
  · rw [← hs.2.2]; rfl

theorem shape_handle (a : Action) (s : App) : shape (handle a s) = shape s := by
  cases a with
  | crimeButton crime => exact shape_updateMap _
  | areaFilter i => exact shape_areaFilterChange i s
  | fromDate v => exact shape_updateMap _
  | toDate v => exact shape_updateMap _
  | mapView v => exact (shape_updateMap _).trans (shape_updateMap _)
  | heatmapRadius v =>
    simp only [handle, heatmapRadiusInput]
    split <;> rfl
  | subdivisionSelect values => exact shape_setSelected values s
  | listItem i => exact shape_listItemClick i s
  | polygon f =>
    simp only [handle, polygonClick]
    split
    · split_ifs
      · exact shape_setSelected _ _
      · rfl
    · rfl
  | reset => exact shape_resetFilters s
  | timer => exact shape_fireTimer s

theorem shape_run (actions : List Action) (s : App) : shape (run actions s) = shape s := by
  induction actions generalizing s with
  | nil => rfl
  | cons a as ih => exact (ih _).trans (shape_handle a s)

theorem afterChange_frame (info : List String) (s : App) :
    (afterChange info s).activeCrime = s.activeCrime
      ∧ (afterChange info s).fromDate = s.fromDate
      ∧ (afterChange info s).toDate = s.toDate
      ∧ (afterChange info s).areaFilters = s.areaFilters
      ∧ (afterChange info s).subdivisionSelect = s.subdivisionSelect
      ∧ (afterChange info s).mapView = s.mapView
      ∧ (afterChange info s).heatmapRadiusSlider = s.heatmapRadiusSlider
      ∧ (afterChange info s).view = s.view ∧ (afterChange info s).allData = s.allData
      ∧ (afterChange info s).subdivisionBoundaries = s.subdivisionBoundaries := by
  obtain ⟨h1, h2, h3, h4, h5, h6, -, h8, h9, -, h11, h12, -⟩ := updateMap_frame s
  exact ⟨h2, h3, h4, h5, h6, h8, h9, h11, h1, h12⟩

theorem setSelected_frame (values : List String) (s : App) :
    (setSelected values s).activeCrime = s.activeCrime
      ∧ (setSelected values s).fromDate = s.fromDate
      ∧ (setSelected values s).toDate = s.toDate
      ∧ (setSelected values s).areaFilters = s.areaFilters
      ∧ (setSelected values s).subdivisionSelect
          = s.subdivisionSelect.map (fun o => ⟨o.value, values.contains o.value⟩)
      ∧ (setSelected values s).mapView = s.mapView
      ∧ (setSelected values s).heatmapRadiusSlider = s.heatmapRadiusSlider
      ∧ (setSelected values s).view = s.view ∧ (setSelected values s).allData = s.allData
      ∧ (setSelected values s).subdivisionBoundaries = s.subdivisionBoundaries := by
  unfold setSelected
  simp only
  split_ifs
  · split
    · exact afterChange_frame _ _
    · exact ⟨rfl, rfl, rfl, rfl, rfl, rfl, rfl, rfl, rfl, rfl⟩
  · exact ⟨rfl, rfl, rfl, rfl, rfl, rfl, rfl, rfl, rfl, rfl⟩

theorem map_select_all (opts : List SelectOption) :
    opts.map (fun o => (⟨o.value, (opts.map (·.value)).contains o.value⟩ : SelectOption))
      = (opts.map (·.value)).map fun v => ⟨v, true⟩ := by
  rw [List.map_map]
  apply List.map_congr_left
  intro o ho
  simp only [Function.comp_apply, SelectOption.mk.injEq, true_and]
  simp only [List.contains_eq_any_beq, List.any_eq_true, beq_iff_eq, List.mem_map]
  exact ⟨o.value, ⟨o, ho, rfl⟩, rfl⟩

theorem snapshot_resetFilters (s : App) :
    snapshot (resetFilters s) = defaultSnapshot (shape s).1 (shape s).2.1 (shape s).2.2 := by
  obtain ⟨h1, h2, h3, h4, h5, -⟩ := setSelected_frame (s.subdivisionSelect.map (·.value))
    { s with activeCrime := "All", fromDate := "", toDate := "",
             areaFilters := s.areaFilters.map fun (cb : Checkbox) => { cb with checked := true } }
  have hshape := shape_setSelected (s.subdivisionSelect.map (·.value))
    { s with activeCrime := "All", fromDate := "", toDate := "",
             areaFilters := s.areaFilters.map fun (cb : Checkbox) => { cb with checked := true } }
  simp only [shape, Prod.mk.injEq] at hshape
  simp only [snapshot, defaultSnapshot, shape, FilterSnapshot.mk.injEq]
  refine ⟨h1, h2, h3, ?_, ?_, ?_, rfl, rfl, rfl⟩
  · refine Eq.trans h4 ?_
    simp [List.map_map, Function.comp_def]
  · refine Eq.trans h5 ?_
    exact map_select_all _
  · refine Eq.trans ?_ (congrArg (List.map fun v => (⟨v, false⟩ : ListItem)) hshape.2.2)
    simp [resetFilters, List.map_map, Function.comp_def]

theorem snapshot_updateMap (s : App) : snapshot (updateMap s) = snapshot s := by
  obtain ⟨-, h2, h3, h4, h5, h6, h7, h8, h9, -, h11, -, -⟩ := updateMap_frame s
  simp [snapshot, h2, h3, h4, h5, h6, h7, h8, h9, h11]

theorem attributeValue_of_plainName (n : String) (h : plainName n = true) :
    attributeValue n = n := by
  unfold plainName at h
  unfold attributeValue
  have hall : ∀ c ∈ n.toList, (c != '"') = true := by
    intro c hc
    have := List.all_eq_true.mp h c hc
    simp only [Bool.and_eq_true] at this
    exact this.1.1.1
  rw [List.takeWhile_eq_self_iff.mpr hall]
  cases n
  rfl

theorem map_attributeValue_of_plainName (names : List String)
    (h : ∀ n ∈ names, plainName n = true) : names.map attributeValue = names := by
  induction names with
  | nil => rfl
  | cons n ns ih =>
    simp only [List.map_cons]
    rw [attributeValue_of_plainName n (h n (List.mem_cons_self _ _)),
      ih (fun m hm => h m (List.mem_cons_of_mem _ hm))]

theorem snapshot_initializeApp (areaValues subdivisions : List String)
    (crimeData : List Record) (loaded : List String)
    (hplain : ∀ n ∈ subdivisions, plainName n = true) :
    snapshot (initializeApp (defaultMarkup areaValues false) subdivisions crimeData loaded)
      = defaultSnapshot areaValues subdivisions subdivisions := by
  have hopts : List.map (fun v => (⟨attributeValue v, false⟩ : SelectOption)) subdivisions
      = List.map (fun v => ⟨v, false⟩) subdivisions :=
    List.map_congr_left fun v hv => by rw [attributeValue_of_plainName v (hplain v hv)]
  have hitems : List.map (fun v => (⟨attributeValue v, false⟩ : ListItem)) subdivisions
      = List.map (fun v => ⟨v, false⟩) subdivisions :=
    List.map_congr_left fun v hv => by rw [attributeValue_of_plainName v (hplain v hv)]
  unfold initializeApp
  simp only [hopts, hitems]
  rw [snapshot_updateMap]
  obtain ⟨h1, h2, h3, h4, h5, h6, h7, h8, -⟩ := setSelected_frame subdivisions
    { scriptStart (defaultMarkup areaValues false) with
      allData := crimeData, subdivisionBoundaries := loadAllBoundaries loaded,
      activeCrime := "All",
      subdivisionSelect := List.map (fun v => ⟨v, false⟩) subdivisions }
  simp only [snapshot, defaultSnapshot, FilterSnapshot.mk.injEq]
  refine ⟨h1, h2, h3, h4, ?_, trivial, h6, h7, h8⟩
  refine Eq.trans h5 ?_
  have := map_select_all (subdivisions.map fun v => (⟨v, false⟩ : SelectOption))
  simp only [List.map_map, Function.comp_def] at this ⊢
  simp [this]

theorem shape_initializeApp (areaValues subdivisions : List String)
    (crimeData : List Record) (loaded : List String)
    (hplain : ∀ n ∈ subdivisions, plainName n = true) :
    shape (initializeApp (defaultMarkup areaValues false) subdivisions crimeData loaded)
      = (areaValues, subdivisions, subdivisions) := by
  have h := snapshot_initializeApp areaValues subdivisions crimeData loaded hplain
  simp only [snapshot, defaultSnapshot, FilterSnapshot.mk.injEq] at h
  obtain ⟨-, -, -, h4, h5, h6, -⟩ := h
  simp [shape, h4, h5, h6, List.map_map, Function.comp_def]

theorem delivery_afterChange (info : List String) (s : App) :
    (afterChange info s).delivery = s.delivery := by
  obtain ⟨-, -, -, -, -, -, -, -, -, -, -, -, h⟩ := updateMap_frame s
  exact h

theorem delivery_setSelected (values : List String) (s : App) (h : s.delivery = .immediate) :
    (setSelected values s).delivery = .immediate := by
  unfold setSelected
  simp only
  split_ifs
  · simp only [h]
    rw [delivery_afterChange]
  · exact h

theorem delivery_resetFilters (s : App) (h : s.delivery = .immediate) :
    (resetFilters s).delivery = .immediate :=
  delivery_setSelected _ _ h

/-- C6, as stated, fails. With a subdivision named `A"B` the option reads
back as `A`, start-up selects nothing and the reset handler selects the
option: the two snapshots differ. When the dropdown debounces its callback,
every list item is highlighted once start-up has settled and none after a
reset, so the snapshots differ again; and a reset that changes the selection
is followed by the callback, which highlights every item. -/
theorem reset_differs_from_initial_snapshot :
    quotedNamePage.subdivisionSelect = [⟨"A", false⟩]
      ∧ (resetFilters quotedNamePage).subdivisionSelect = [⟨"A", true⟩]
      ∧ snapshot (resetFilters quotedNamePage) ≠ snapshot quotedNamePage
      ∧ startPageDebounced.listItems = [⟨"A", true⟩, ⟨"B", true⟩]
      ∧ (run [.reset, .timer] startPageDebounced).listItems = [⟨"A", false⟩, ⟨"B", false⟩]
      ∧ snapshot (run [.reset, .timer] startPageDebounced) ≠ snapshot startPageDebounced
      ∧ (run [.subdivisionSelect ["A"], .timer, .reset, .timer] startPageDebounced).listItems
          = [⟨"A", true⟩, ⟨"B", true⟩] := by
  refine ⟨by decide, by decide, ?_, by decide, by decide, ?_, by decide⟩
  · intro h
    have hc := congrArg FilterSnapshot.subdivisionSelect h
    exact absurd hc (by decide)
  · intro h
    have hc := congrArg FilterSnapshot.listItems h
    exact absurd hc (by decide)

/-- C6, amended: for every filter state, when the reset handler returns the
event type is "All", both date bounds are unset, every category checkbox is
checked, every subdivision option is selected, no list item is highlighted,
the view mode is point, the heat radius is 25 and the viewport is centre
[8.78, 78.13] at zoom 10; when the dropdown calls back inside the call,
nothing is left to change this. This is the snapshot taken after
initialization when the page's template starts the controls at these values,
the dropdown calls back inside the call and no subdivision name holds a
double quote, `&`, `<` or `>`. -/
theorem reset_writes_default_filter_state :
    (∀ s : App, snapshot (resetFilters s)
        = { activeCrime := "All", fromDate := "", toDate := "",
            areaFilters := s.areaFilters.map fun cb => ⟨cb.value, true⟩,
            subdivisionSelect := s.subdivisionSelect.map fun o => ⟨o.value, true⟩,
            listItems := s.listItems.map fun item => ⟨item.station, false⟩,
            mapView := "point", heatmapRadius := 25, view := .setView 8.78 78.13 10 })
      ∧ (∀ s : App, s.delivery = .immediate → (resetFilters s).delivery = .immediate)
      ∧ (∀ (areaValues subdivisions : List String) (crimeData : List Record)
          (loaded : List String) (actions : List Action),
          (∀ n ∈ subdivisions, plainName n = true) →
          snapshot (resetFilters (run actions
              (initializeApp (defaultMarkup areaValues false) subdivisions crimeData loaded)))
            = snapshot
                (initializeApp (defaultMarkup areaValues false) subdivisions crimeData loaded)) := by
  refine ⟨?_, ?_, ?_⟩
  · intro s
    rw [snapshot_resetFilters]
    simp [defaultSnapshot, shape, List.map_map, Function.comp_def]
  · intro s hs
    exact delivery_resetFilters s hs
  · intro areaValues subdivisions crimeData loaded actions hplain
    rw [snapshot_resetFilters, shape_run, shape_initializeApp _ _ _ _ hplain,
      snapshot_initializeApp _ _ _ _ hplain]

/-- C6, amended, at the start page with two plain subdivision names: after
an event-type click, a view change and a dropdown change, the reset handler
gives back the snapshot taken after initialization. -/
theorem reset_writes_default_filter_state_witness :
    (∀ n ∈ ["A", "B"], plainName n = true)
      ∧ snapshot (resetFilters
          (run [.crimeButton "Theft", .mapView "heat", .subdivisionSelect ["B"]] startPage))
        = snapshot startPage :=
  ⟨by decide, reset_writes_default_filter_state.2.2 [] ["A", "B"] [scenarioTheft, scenarioFire] []
    [.crimeButton "Theft", .mapView "heat", .subdivisionSelect ["B"]] (by decide)⟩

/-! ## Boundary clicks: C7 -/

theorem listItems_afterChange (info : List String) (s : App) :
    (afterChange info s).listItems
      = s.listItems.map fun item => { item with active := info.contains item.station } := by
  obtain ⟨-, -, -, -, -, -, h7, -⟩ := updateMap_frame s
  simp only [afterChange, h7]

theorem fireTimer_of_immediate (s : App) (h : s.delivery = .immediate) : fireTimer s = s := by
  unfold fireTimer
  rw [h]

theorem fireTimer_setSelected_listItems (values : List String) (s : App)
    (hchg : getSelected (s.subdivisionSelect.map
        fun o => (⟨o.value, values.contains o.value⟩ : SelectOption)) ≠ getSelected s.subdivisionSelect) :
    (fireTimer (setSelected values s)).listItems = s.listItems.map fun item =>
      { item with active := (getSelected (s.subdivisionSelect.map
          fun o => (⟨o.value, values.contains o.value⟩ : SelectOption))).contains item.station } := by
  unfold setSelected
  simp only
  rw [if_pos (by simpa [bne_iff_ne] using hchg)]
  have key : ∀ (t : App) (info : List String), t.delivery = .immediate →
      (fireTimer (afterChange info t)).listItems
        = t.listItems.map fun item => { item with active := info.contains item.station } := by
    intro t info ht
    rw [fireTimer_of_immediate _ ((delivery_afterChange _ _).trans ht), listItems_afterChange]
  split
  · rename_i hd
    exact key _ _ hd
  · simp only [fireTimer]
    rw [listItems_afterChange]

theorem getSelected_single (name : String) (opts : List SelectOption) :
    getSelected (opts.map fun o => (⟨o.value, [name].contains o.value⟩ : SelectOption))
      = (opts.filter fun o => o.value == name).map (·.value) := by
  simp [getSelected, List.filter_map, List.map_map, Function.comp_def]
  rfl

theorem polygonClick_eq (fileName name : String) (s : App)
    (hfile : FILENAME_TO_SUBDIVISION_MAP.lookup fileName = some name)
    (hloaded : name ∈ s.subdivisionBoundaries) :
    polygonClick fileName s = setSelected [name] { s with view := .fitBounds name } := by
  unfold polygonClick
  simp only [hfile]
  rw [if_pos (by simpa using hloaded)]
  rfl

/-- C7, as stated, fails: the table maps 'Maniyachi.geojson' to "Maniyachi",
but on a page whose subdivisions do not include that name a click on its
polygon leaves no subdivision selected and no list item highlighted, whether
the dropdown calls back inside the click or through its timer. -/
theorem polygon_click_on_unlisted_name_selects_nothing :
    FILENAME_TO_SUBDIVISION_MAP.lookup "Maniyachi.geojson" = some "Maniyachi"
      ∧ "Maniyachi" ∈ unlistedBoundaryPage.subdivisionBoundaries
      ∧ getSelected (polygonClick "Maniyachi.geojson" unlistedBoundaryPage).subdivisionSelect = []
      ∧ (polygonClick "Maniyachi.geojson" unlistedBoundaryPage).listItems
          = [⟨"Kovilpatti", false⟩]
      ∧ getSelected
          (run [.polygon "Maniyachi.geojson", .timer] unlistedBoundaryPageDebounced).subdivisionSelect
          = []
      ∧ (run [.polygon "Maniyachi.geojson", .timer] unlistedBoundaryPageDebounced).listItems
          = [⟨"Kovilpatti", false⟩] := by
  decide

/-- C7, amended: for every boundary file of the table whose mapped name is
one of the dropdown's options, and every prior selection, a click on a
polygon loaded from that file fits the view to that boundary and leaves
selected exactly the options of that name; when this changes the selection,
the highlighted list items are exactly the items of that name, as soon as
the dropdown has delivered its callback (inside the click, or when its
debounce timer fires). -/
theorem polygon_click_selects_mapped_name (fileName name : String) (s : App)
    (hfile : FILENAME_TO_SUBDIVISION_MAP.lookup fileName = some name)
    (hloaded : name ∈ s.subdivisionBoundaries)
    (hopt : name ∈ s.subdivisionSelect.map (·.value)) :
    (polygonClick fileName s).view = .fitBounds name
      ∧ getSelected (polygonClick fileName s).subdivisionSelect ≠ []
      ∧ (∀ v ∈ getSelected (polygonClick fileName s).subdivisionSelect, v = name)
      ∧ (∀ o ∈ (polygonClick fileName s).subdivisionSelect, o.selected = true ↔ o.value = name)
      ∧ (getSelected (polygonClick fileName s).subdivisionSelect ≠ getSelected s.subdivisionSelect →
          (fireTimer (polygonClick fileName s)).listItems.map (·.station)
              = s.listItems.map (·.station)
            ∧ ∀ item ∈ (fireTimer (polygonClick fileName s)).listItems,
                item.active = true ↔ item.station = name) := by
  rw [polygonClick_eq fileName name s hfile hloaded]
  obtain ⟨-, -, -, -, h5, -, -, h8, -⟩ := setSelected_frame [name] { s with view := .fitBounds name }
  have hsel : getSelected (setSelected [name] { s with view := .fitBounds name }).subdivisionSelect
      = (s.subdivisionSelect.filter fun o => o.value == name).map (·.value) := by
    rw [h5]; exact getSelected_single name _
  obtain ⟨o, ho, hov⟩ := List.mem_map.mp hopt
  refine ⟨h8, ?_, ?_, ?_, ?_⟩
  · rw [hsel]
    intro hnil
    have : o.value ∈ (s.subdivisionSelect.filter fun o => o.value == name).map (·.value) :=
      List.mem_map.mpr ⟨o, List.mem_filter.mpr ⟨ho, by simp [hov]⟩, rfl⟩
    rw [hnil] at this
    exact absurd this (List.not_mem_nil _)
  · rw [hsel]
    intro v hv
    obtain ⟨p, hp, rfl⟩ := List.mem_map.mp hv
    simpa using (List.mem_filter.mp hp).2
  · rw [h5]
    intro p hp
    obtain ⟨q, -, rfl⟩ := List.mem_map.mp hp
    simp
  · intro hchg
    rw [h5] at hchg
    have hl := fireTimer_setSelected_listItems [name] { s with view := .fitBounds name } hchg
    rw [hl]
    refine ⟨by simp [List.map_map, Function.comp_def], ?_⟩
    intro item hitem
    obtain ⟨it, -, rfl⟩ := List.mem_map.mp hitem
    have := getSelected_single name s.subdivisionSelect
    simp only at this ⊢
    rw [this]
    simp only [List.contains_eq_any_beq, List.any_eq_true, beq_iff_eq, List.mem_map,
      List.mem_filter]
    constructor
    · rintro ⟨x, ⟨p, ⟨-, hp⟩, rfl⟩, hx⟩
      rw [hx]; exact hp
    · intro h
      exact ⟨o.value, ⟨o, ⟨ho, hov⟩, rfl⟩, by rw [hov, h]⟩

/-- C7, amended, for 'kovilpatti.geojson' on a page with the subdivisions
Kovilpatti and Maniyachi, both selected: the click fits the view to the
boundary and leaves exactly "Kovilpatti" selected and highlighted. -/
theorem polygon_click_selects_mapped_name_witness :
    FILENAME_TO_SUBDIVISION_MAP.lookup "kovilpatti.geojson" = some "Kovilpatti"
      ∧ "Kovilpatti" ∈ kovilpattiPage.subdivisionBoundaries
      ∧ "Kovilpatti" ∈ kovilpattiPage.subdivisionSelect.map (·.value)
      ∧ (polygonClick "kovilpatti.geojson" kovilpattiPage).view = .fitBounds "Kovilpatti"
      ∧ getSelected (polygonClick "kovilpatti.geojson" kovilpattiPage).subdivisionSelect
          = ["Kovilpatti"]
      ∧ (polygonClick "kovilpatti.geojson" kovilpattiPage).listItems
          = [⟨"Kovilpatti", true⟩, ⟨"Maniyachi", false⟩]
      ∧ (∀ v ∈ getSelected (polygonClick "kovilpatti.geojson" kovilpattiPage).subdivisionSelect,
          v = "Kovilpatti") :=
  ⟨by decide, by decide, by decide, by decide, by decide, by decide,
    (polygon_click_selects_mapped_name "kovilpatti.geojson" "Kovilpatti" kovilpattiPage
      (by decide) (by decide) (by decide)).2.2.1⟩

/-! ## The heat radius: C8 -/

/-- C8: the slider handler sets the heat layer's radius to the new value and
its blur to half of it, drawHeatMap builds a layer whose blur is half the
slider value, and the handler changes nothing but the slider, its label and
these two options: allData, the filter result, the point group, the cluster
group, the overlays on the map and the heat layer's points stay as they
were. Moving the slider from 25 to 40 sets the blur to 20. -/
theorem heat_blur_is_half_radius (r : ℚ) (s : App) :
    (∀ h, (heatmapRadiusInput r s).heatLayer = some h → h.radius = r ∧ h.blur = r / 2)
      ∧ (∀ data : List Record, data ≠ [] →
          ∃ h, (drawHeatMap data s).heatLayer = some h
            ∧ h.radius = s.heatmapRadiusSlider ∧ h.blur = s.heatmapRadiusSlider / 2)
      ∧ heatmapRadiusInput r s
          = { s with heatmapRadiusSlider := r, radiusValueSpan := r,
                     heatLayer := s.heatLayer.map fun h => { h with radius := r, blur := r / 2 } }
      ∧ (heatmapRadiusInput r s).allData = s.allData
      ∧ applyFilters (heatmapRadiusInput r s) = applyFilters s
      ∧ (heatmapRadiusInput r s).pointLayerGroup = s.pointLayerGroup
      ∧ (heatmapRadiusInput r s).clusterLayerGroup = s.clusterLayerGroup
      ∧ (heatmapRadiusInput r s).mapLayers = s.mapLayers
      ∧ (heatmapRadiusInput r s).heatLayer.map (·.points) = s.heatLayer.map (·.points)
      ∧ heatPage.heatLayer.map (fun h => (h.radius, h.blur)) = some (25, 25 / 2)
      ∧ (heatmapRadiusInput 40 heatPage).heatLayer.map (fun h => (h.radius, h.blur))
          = some (40, 20) := by
  have heq : heatmapRadiusInput r s
      = { s with heatmapRadiusSlider := r, radiusValueSpan := r,
                 heatLayer := s.heatLayer.map fun h => { h with radius := r, blur := r / 2 } } := by
    unfold heatmapRadiusInput
    cases hh : s.heatLayer <;> simp [hh]
  refine ⟨?_, ?_, heq, ?_, ?_, ?_, ?_, ?_, ?_, rfl, ?_⟩
  · intro h hh
    rw [heq] at hh
    cases hs : s.heatLayer with
    | none => simp [hs] at hh
    | some h0 =>
      simp only [hs, Option.map_some', Option.some.injEq] at hh
      subst hh
      exact ⟨rfl, rfl⟩
  · intro data hdata
    cases data with
    | nil => exact absurd rfl hdata
    | cons d ds =>
      exact ⟨_, rfl, rfl, rfl⟩
  · rw [heq]
  · rw [heq]; rfl
  · rw [heq]
  · rw [heq]
  · rw [heq]
  · rw [heq]
    cases s.heatLayer <;> rfl
  · have h20 : ((40 : ℚ) / 2) = 20 := by norm_num
    rw [← h20]
    rfl

/-! ## Styles: C9 -/

theorem lookup_crimeStyles_of_unlisted (k : String)
    (h : k ∉ crimeStyles.map (·.1)) : crimeStyles.lookup k = none := by
  simp only [crimeStyles, List.map_cons, List.map_nil, List.mem_cons, List.mem_singleton,
    List.not_mem_nil, or_false, not_or] at h
  obtain ⟨h1, h2, h3, h4, h5, h6, h7, h8⟩ := h
  rw [List.lookup_eq_none_iff]
  intro p hp
  simp only [crimeStyles, List.mem_cons, List.mem_singleton, List.not_mem_nil, or_false] at hp
  rcases hp with rfl | rfl | rfl | rfl | rfl | rfl | rfl | rfl <;> simp [*]

theorem getStyleForCrime_of_not_inherited (k : String) (h : k ∉ objectPrototypeKeys) :
    getStyleForCrime k = specStyle k := by
  by_cases hk : k ∈ crimeStyles.map (·.1)
  · simp only [crimeStyles, List.map_cons, List.map_nil, List.mem_cons, List.mem_singleton,
      List.not_mem_nil, or_false] at hk
    rcases hk with rfl | rfl | rfl | rfl | rfl | rfl | rfl | rfl <;> rfl
  · have hl := lookup_crimeStyles_of_unlisted k hk
    have hc : objectPrototypeKeys.contains k = false := by
      simpa using h
    have hlisted : (["Fighting / Threatening", "Family Dispute", "Road Accident", "Fire Accident",
        "Woman & Child Related", "Theft / Robbery", "Prohibition Related"].contains k) = false := by
      simp only [crimeStyles, List.map_cons, List.map_nil, List.mem_cons, List.mem_singleton,
        List.not_mem_nil, or_false, not_or] at hk
      obtain ⟨h1, h2, h3, h4, h5, h6, h7, -⟩ := hk
      simp [h1, h2, h3, h4, h5, h6, h7]
    unfold getStyleForCrime getProp specStyle
    simp only [hl, hc, hlisted]
    rfl

/-- C9 fails at the event type "constructor": the lookup finds the member
that every object inherits, the spread copies nothing from it, and the style
returned has neither fillColor nor color; the specification promises the
default entry there. For every string that is no member of Object.prototype
the style is the promised one. -/
theorem getStyleForCrime_constructor_has_no_colours :
    getStyleForCrime "constructor" = ⟨none, none, 6, 1, 1, 0.8⟩
      ∧ specStyle "constructor" = ⟨some "#808080", some "#404040", 6, 1, 1, 0.8⟩
      ∧ (getStyleForCrime "constructor").fillColor = none
      ∧ (getStyleForCrime "constructor").color = none
      ∧ (∀ k, k ∈ objectPrototypeKeys → (getStyleForCrime k).fillColor = none)
      ∧ (∀ k, k ∉ objectPrototypeKeys → getStyleForCrime k = specStyle k) := by
  refine ⟨rfl, rfl, by decide, by decide, ?_, getStyleForCrime_of_not_inherited⟩
  intro k hk
  simp only [objectPrototypeKeys, List.mem_cons, List.mem_singleton, List.not_mem_nil,
    or_false] at hk
  rcases hk with rfl | rfl | rfl | rfl | rfl | rfl | rfl | rfl | rfl | rfl | rfl | rfl <;> decide

/-! ## Popups: C10 -/

theorem orNA_eq_shownOrNA (x : Option String) : orNA x = shownOrNA x := by
  cases x with
  | none => rfl
  | some v => by_cases h : v = "" <;> simp [orNA, shownOrNA, truthy, h]

theorem createPopupContent_eq (item : Record) :
    createPopupContent item = renderEntries (popupEntries shownOrNA item) := by
  simp only [createPopupContent, renderEntries, popupEntries, orNA_eq_shownOrNA]
  apply String.ext
  simp [String.intercalate, String.intercalate.go, String.append_assoc]

set_option maxRecDepth 100000 in
/-- C10, as stated, fails: for a record whose complaint is present and
empty, the popup shows "N/A" for the complaint, not the record's own (empty)
value. -/
theorem empty_field_shown_as_NA :
    emptyComplaintRecord.Complaint = some ""
      ∧ createPopupContent emptyComplaintRecord
          ≠ renderEntries (popupEntries specShown emptyComplaintRecord)
      ∧ createPopupContent emptyComplaintRecord
          = "<strong>Event:</strong> Theft<br><strong>Subdivision:</strong> A<br><strong>Police Station:</strong> Central<br><strong>Complaint:</strong> N/A<br><strong>Date:</strong> 2024-01-05" := by
  refine ⟨rfl, ?_, rfl⟩
  intro h
  have hlen := congrArg String.length h
  revert hlen
  decide

/-- C10, amended: createPopupContent returns the five labelled entries Event,
Subdivision, Police Station, Complaint, Date in that order, separated by line
breaks, where each entry shows the record's own value when the field is
present and not empty, and "N/A" when the field is absent or empty; for a
record whose five fields are present and not empty this is the text the
specification promises. -/
theorem createPopupContent_entries (item : Record) :
    createPopupContent item = renderEntries (popupEntries shownOrNA item)
      ∧ (popupEntries shownOrNA item).map (·.1)
          = ["Event", "Subdivision", "Police Station", "Complaint", "Date"]
      ∧ shownOrNA none = "N/A" ∧ shownOrNA (some "") = "N/A"
      ∧ (∀ v, v ≠ "" → shownOrNA (some v) = v)
      ∧ ((∀ x ∈ [item.EventType, item.Subdivision, item.PoliceStation, item.Complaint, item.Date],
            x ≠ some "") →
          createPopupContent item = renderEntries (popupEntries specShown item)) := by
  refine ⟨createPopupContent_eq item, rfl, rfl, rfl, ?_, ?_⟩
  · intro v hv
    simp [shownOrNA, hv]
  · intro h
    have key : ∀ x : Option String, x ≠ some "" → shownOrNA x = specShown x := by
      intro x hx
      cases x with
      | none => rfl
      | some v =>
        have : v ≠ "" := fun e => hx (by rw [e])
        simp [shownOrNA, specShown, this]
    simp only [List.mem_cons, List.mem_singleton, List.not_mem_nil, or_false,
      forall_eq_or_imp, forall_eq] at h
    obtain ⟨h1, h2, h3, h4, h5⟩ := h
    rw [createPopupContent_eq]
    simp only [popupEntries, key _ h1, key _ h2, key _ h3, key _ h4, key _ h5]

set_option maxRecDepth 100000 in
/-- C10, amended, at a record whose five fields are present and not empty:
the popup carries the record's own five values. -/
theorem createPopupContent_entries_witness :
    (∀ x ∈ [fullRecord.EventType, fullRecord.Subdivision, fullRecord.PoliceStation,
        fullRecord.Complaint, fullRecord.Date], x ≠ some "")
      ∧ createPopupContent fullRecord
          = renderEntries (popupEntries specShown fullRecord)
      ∧ renderEntries (popupEntries specShown fullRecord)
          = "<strong>Event:</strong> Theft<br><strong>Subdivision:</strong> A<br><strong>Police Station:</strong> Central<br><strong>Complaint:</strong> Stolen bicycle<br><strong>Date:</strong> 2024-01-05" :=
  ⟨by decide, (createPopupContent_entries fullRecord).2.2.2.2.2 (by decide), by decide⟩

end CrimeDashboard
